import Mathlib

/-!
Verification of the NexusController device-session and flow-composition model.

This file shallowly embeds the Python sources of the repository:
  * `nexuscontrol_maestro.py` / `nexuscontrol_advanced.py` (class `AndroidMCP`),
  * `android_mcp/controller.py` (class `AndroidController`),
  * `nexuscontroller_cli.py` (flow save / load helpers),
  * `mcp_adapter.py` (class `MCPAdapter` and `handle_mcp_request`),
  * `mcp_server.py` (FastMCP tool functions).

External processes are modelled by an environment `Env : Invocation → CmdResult`
mapping an argument vector to captured stdout / stderr / exit code; every
embedded operation returns, besides its result, the list of external
invocations it issued, in order.  The local filesystem, where an operation
reads it, is modelled as a partial map from paths to contents.  All string
manipulation is implemented structurally over `List Char` so that every
definition evaluates inside the kernel.
-/

namespace NexusSpec

/-! ### Python string primitives -/

/-- Python `str.strip()` whitespace set (the ASCII part, which is all the
sources rely on). -/
def isPySpace (c : Char) : Bool :=
  c = ' ' || c = '\t' || c = '\n' || c = '\r' || c = '\x0b' || c = '\x0c'

/-- Python `str.strip()` on a character list. -/
def pyStripChars (cs : List Char) : List Char :=
  ((cs.dropWhile isPySpace).reverse.dropWhile isPySpace).reverse

/-- Python `str.strip()`. -/
def pyStrip (s : String) : String := String.mk (pyStripChars s.data)

/-- Auxiliary, fuel-driven worker for `pySplit`; the fuel is the length of the
input, which suffices for every non-empty separator. -/
def pySplitAux (sep : List Char) : Nat → List Char → List (List Char)
  | _, [] => [[]]
  | 0, cs => [cs]
  | fuel + 1, c :: rest =>
      if (c :: rest).take sep.length = sep then
        [] :: pySplitAux sep fuel ((c :: rest).drop sep.length)
      else
        match pySplitAux sep fuel rest with
        | l :: ls => (c :: l) :: ls
        | [] => [[c]]

/-- Python `str.split(sep)` for a non-empty separator: keeps empty parts,
exactly like the Python method. -/
def pySplit (sep cs : List Char) : List (List Char) := pySplitAux sep cs.length cs

/-- Python `str.split(sep)` on `String`s. -/
def pySplitStr (sep s : String) : List String :=
  (pySplit sep.data s.data).map String.mk

/-- Does `cs` start with `pre`? -/
def listStarts (pre cs : List Char) : Bool := decide (cs.take pre.length = pre)

/-- Is `sub` a contiguous sublist of `cs`? (Python `sub in s`.) -/
def listContainsSub (sub : List Char) : List Char → Bool
  | [] => decide (sub = [])
  | c :: rest => listStarts sub (c :: rest) || listContainsSub sub rest

/-- Python `sub in s` on strings. -/
def strContains (s sub : String) : Bool := listContainsSub sub.data s.data

/-- Python `str.lower()`. -/
def pyLower (s : String) : String := String.mk (s.data.map Char.toLower)

/-- Python `str.upper()`. -/
def pyUpper (s : String) : String := String.mk (s.data.map Char.toUpper)

/-- Digit run to a natural number (`int()` on a non-empty digit string). -/
def natOfDigits (ds : List Char) : Nat :=
  ds.foldl (fun n c => 10 * n + (c.toNat - '0'.toNat)) 0

/-- Python `int(s)`: optional surrounding whitespace, optional sign, at least
one digit.  Returns `none` where Python raises `ValueError`. -/
def pyInt (s : String) : Option Int :=
  match pyStripChars s.data with
  | [] => none
  | '-' :: ds => if ds ≠ [] ∧ ds.all Char.isDigit then some (-(natOfDigits ds : Int)) else none
  | '+' :: ds => if ds ≠ [] ∧ ds.all Char.isDigit then some ((natOfDigits ds : Int)) else none
  | ds => if ds.all Char.isDigit then some ((natOfDigits ds : Int)) else none

/-- Python truthiness of an optional string argument (`if text:`):
`None` and the empty string are falsy. -/
def pyTruthy : Option String → Bool
  | none => false
  | some s => decide (s ≠ "")

/-! ### Tiny regular-expression fragment

`get_device_info` uses `re.search` with patterns of the shape
*literal prefix followed by runs of digits separated by literal bits*
(`level: (\d+)`, `Physical size: (\d+x\d+)`, `inet (\d+\.\d+\.\d+\.\d+)`).
Because every separator is a non-digit, greedy maximal-munch matching agrees
with the backtracking semantics of `re`. -/

/-- One token of the captured part of such a pattern. -/
inductive RePart where
  | lit (cs : List Char)
  | digits
deriving Repr, DecidableEq

/-- Match a token list at the head of the input; returns the captured
characters. -/
def reMatchAt : List RePart → List Char → Option (List Char)
  | [], _ => some []
  | RePart.lit l :: ps, cs =>
      if cs.take l.length = l then
        (reMatchAt ps (cs.drop l.length)).map (fun cap => l ++ cap)
      else none
  | RePart.digits :: ps, cs =>
      let ds := cs.takeWhile Char.isDigit
      if ds = [] then none
      else (reMatchAt ps (cs.drop ds.length)).map (fun cap => ds ++ cap)

/-- `re.search` for a pattern `lit pre ++ body`, capturing the part matched by
`body`: try every position left to right. -/
def reSearch (pre : List Char) (body : List RePart) : List Char → Option (List Char)
  | [] =>
      if pre = [] then reMatchAt body [] else none
  | c :: rest =>
      (if (c :: rest).take pre.length = pre then reMatchAt body ((c :: rest).drop pre.length)
       else none).orElse (fun _ => reSearch pre body rest)

/-- `re.search(pre ++ r"(\d+)", s)`, returning the digit capture. -/
def reSearchDigits (pre : String) (s : String) : Option String :=
  (reSearch pre.data [RePart.digits] s.data).map String.mk

/-! ### Process and filesystem model -/

/-- The argument vector handed to `subprocess.run`. -/
abbrev Invocation := List String

/-- Captured outcome of one external invocation. -/
structure CmdResult where
  stdout : String
  stderr : String
  exitcode : Int
deriving Repr, DecidableEq

/-- The behaviour of the outside world: what each invocation returns. -/
abbrev Env := Invocation → CmdResult

/-- The local filesystem: path to contents, `none` when the path is absent. -/
abbrev FS := String → Option String

/-- Python exceptions that the embedded code can raise. -/
inductive PyErr where
  | calledProcessError
  | valueError
deriving Repr, DecidableEq

/-! ### Association lists (Python `dict` with string keys) -/

/-- `d[k] = v` on a Python dict modelled as an insertion-ordered list. -/
def dictInsert {α : Type} : List (String × α) → String → α → List (String × α)
  | [], k, v => [(k, v)]
  | (k0, v0) :: rest, k, v =>
      if k0 = k then (k0, v) :: rest else (k0, v0) :: dictInsert rest k v

/-- `d.get(k)` on a Python dict modelled as a list. -/
def dictGet {α : Type} : List (String × α) → String → Option α
  | [], _ => none
  | (k0, v0) :: rest, k => if k0 = k then some v0 else dictGet rest k

/-! ## `AndroidMCP` (nexuscontrol_maestro.py / nexuscontrol_advanced.py)

The two files define byte-identical implementations of the functions embedded
here; `android_mcp/controller.py` repeats `get_devices` verbatim as well. -/

namespace AndroidMCP

/-- The bridge device-listing command. -/
def adb_devices_cmd : Invocation := ["adb", "devices"]

/-- The parsing loop of `AndroidMCP.get_devices`: skip the first line, then
for every non-blank line split on tabs, and keep the stripped id of every
line whose stripped second field is `"device"`. -/
def parse_devices (stdout : String) : List String :=
  let lines := (pySplitStr "\n" (pyStrip stdout)).drop 1
  lines.foldl
    (fun devices line =>
      if pyStrip line = "" then devices
      else
        match pySplitStr "\t" line with
        | p0 :: p1 :: _ =>
            if pyStrip p1 = "device" then devices ++ [pyStrip p0] else devices
        | _ => devices)
    []

/-- Modelled from the spec: the §4.1 description of `list_devices` — skip the
one-line header, parse each remaining non-blank line as tab-separated
`id, status`, return in reported order exactly the ids whose status is the
authorized-device status `"device"`.  Stated declaratively to be compared
with `parse_devices`. -/
def spec_device_line (line : String) : Option String :=
  if pyStrip line = "" then none
  else
    match pySplitStr "\t" line with
    | p0 :: p1 :: _ => if pyStrip p1 = "device" then some (pyStrip p0) else none
    | _ => none

/-- Modelled from the spec: declarative form of the device-listing parse. -/
def spec_list_devices (stdout : String) : List String :=
  ((pySplitStr "\n" (pyStrip stdout)).drop 1).filterMap spec_device_line

/-- `AndroidMCP.get_devices` (`subprocess.run(["adb", "devices"], check=True)`
followed by the parse). -/
def get_devices (env : Env) : Except PyErr (List String) × List Invocation :=
  let r := env adb_devices_cmd
  if r.exitcode = 0 then (Except.ok (parse_devices r.stdout), [adb_devices_cmd])
  else (Except.error PyErr.calledProcessError, [adb_devices_cmd])

/-! ### Device information cache -/

/-- The cached per-device property bag built by `get_device_info`. -/
structure DeviceInfo where
  model : String
  manufacturer : String
  android_version : String
  api_level : String
  battery_level : String
  battery_status : String
  screen_resolution : String
  ip_address : String
deriving Repr, DecidableEq

/-- `self.device_cache`. -/
abbrev Cache := List (String × DeviceInfo)

/-- `adb -s <id> shell getprop <prop>`. -/
def q_getprop (device_id prop : String) : Invocation :=
  ["adb", "-s", device_id, "shell", "getprop", prop]

/-- `adb -s <id> shell dumpsys battery`. -/
def q_battery (device_id : String) : Invocation :=
  ["adb", "-s", device_id, "shell", "dumpsys", "battery"]

/-- `adb -s <id> shell wm size`. -/
def q_wm_size (device_id : String) : Invocation :=
  ["adb", "-s", device_id, "shell", "wm", "size"]

/-- `adb -s <id> shell ip addr show wlan0`. -/
def q_ip (device_id : String) : Invocation :=
  ["adb", "-s", device_id, "shell", "ip", "addr", "show", "wlan0"]

/-- The `status_map` lookup with default `"Unknown"` in `get_device_info`. -/
def battery_status_map (code : Int) : String :=
  if code = 1 then "Unknown"
  else if code = 2 then "Charging"
  else if code = 3 then "Discharging"
  else if code = 4 then "Not charging"
  else if code = 5 then "Full"
  else "Unknown"

/-- The refresh branch of `get_device_info`: one property query per field,
each unparsable field degrading to its sentinel.  A function of the
environment and the device id alone — it does not read the cache. -/
def fresh_device_info (env : Env) (device_id : String) : DeviceInfo :=
  let model := pyStrip (env (q_getprop device_id "ro.product.model")).stdout
  let manufacturer := pyStrip (env (q_getprop device_id "ro.product.manufacturer")).stdout
  let android_version := pyStrip (env (q_getprop device_id "ro.build.version.release")).stdout
  let api_level := pyStrip (env (q_getprop device_id "ro.build.version.sdk")).stdout
  let battery_output := (env (q_battery device_id)).stdout
  let battery_level := (reSearchDigits "level: " battery_output).getD "Unknown"
  let status_code : Int :=
    match reSearchDigits "status: " battery_output with
    | some ds => (natOfDigits ds.data : Int)
    | none => -1
  let battery_status := battery_status_map status_code
  let screen_resolution :=
    match reSearch "Physical size: ".data
        [RePart.digits, RePart.lit ['x'], RePart.digits]
        (env (q_wm_size device_id)).stdout.data with
    | some cap => String.mk cap
    | none => "Unknown"
  let ip_address :=
    match reSearch "inet ".data
        [RePart.digits, RePart.lit ['.'], RePart.digits, RePart.lit ['.'],
         RePart.digits, RePart.lit ['.'], RePart.digits]
        (env (q_ip device_id)).stdout.data with
    | some cap => String.mk cap
    | none => "Not connected to WiFi"
  ⟨model, manufacturer, android_version, api_level,
   battery_level, battery_status, screen_resolution, ip_address⟩

/-- The full set of property queries a refresh issues, in order. -/
def info_queries (device_id : String) : List Invocation :=
  [q_getprop device_id "ro.product.model",
   q_getprop device_id "ro.product.manufacturer",
   q_getprop device_id "ro.build.version.release",
   q_getprop device_id "ro.build.version.sdk",
   q_battery device_id,
   q_wm_size device_id,
   q_ip device_id]

/-- `AndroidMCP.get_device_info(device_id, force_refresh)`: return the cached
bag unless absent or forced; otherwise refresh and overwrite the cache entry
wholesale. -/
def get_device_info (cache : Cache) (env : Env) (device_id : String)
    (force_refresh : Bool) : DeviceInfo × Cache × List Invocation :=
  match dictGet cache device_id, force_refresh with
  | some info, false => (info, cache, [])
  | _, _ =>
      let info := fresh_device_info env device_id
      (info, dictInsert cache device_id info, info_queries device_id)

/-! ### Input and shell operations -/

/-- `text.replace(' ', '%s')` in `send_text`: every space becomes the
two-character sequence `%s`, all other characters pass through. -/
def send_text_escape (text : String) : String :=
  String.mk (text.data.foldr (fun c acc => if c = ' ' then '%' :: 's' :: acc else c :: acc) [])

/-- `AndroidMCP.send_text` (`check=True`). -/
def send_text (env : Env) (device_id text : String) : Except PyErr Unit × List Invocation :=
  let cmd := ["adb", "-s", device_id, "shell", "input", "text", send_text_escape text]
  (if (env cmd).exitcode = 0 then Except.ok () else Except.error PyErr.calledProcessError, [cmd])

/-- `AndroidMCP.send_keyevent` (`check=True`). -/
def send_keyevent (env : Env) (device_id : String) (keycode : Int) :
    Except PyErr Unit × List Invocation :=
  let cmd := ["adb", "-s", device_id, "shell", "input", "keyevent", toString keycode]
  (if (env cmd).exitcode = 0 then Except.ok () else Except.error PyErr.calledProcessError, [cmd])

/-- `AndroidMCP.tap_screen` (`check=True`). -/
def tap_screen (env : Env) (device_id : String) (x y : Int) :
    Except PyErr Unit × List Invocation :=
  let cmd := ["adb", "-s", device_id, "shell", "input", "tap", toString x, toString y]
  (if (env cmd).exitcode = 0 then Except.ok () else Except.error PyErr.calledProcessError, [cmd])

/-- `AndroidMCP.swipe_screen` (`check=True`). -/
def swipe_screen (env : Env) (device_id : String) (x1 y1 x2 y2 duration : Int) :
    Except PyErr Unit × List Invocation :=
  let cmd := ["adb", "-s", device_id, "shell", "input", "swipe",
              toString x1, toString y1, toString x2, toString y2, toString duration]
  (if (env cmd).exitcode = 0 then Except.ok () else Except.error PyErr.calledProcessError, [cmd])

/-- `AndroidMCP.run_shell_command` (`check=False`; returns captured stdout,
never raises). -/
def run_shell_command (env : Env) (device_id command : String) : String × List Invocation :=
  let cmd := ["adb", "-s", device_id, "shell", command]
  ((env cmd).stdout, [cmd])

/-- `AndroidMCP.pull_file` (`check=False`; success iff `"error"` does not
occur in lower-cased stderr). -/
def pull_file (env : Env) (device_id device_path local_path : String) :
    Bool × List Invocation :=
  let cmd := ["adb", "-s", device_id, "pull", device_path, local_path]
  (!(strContains (pyLower (env cmd).stderr) "error"), [cmd])

/-- The parsing loop of `AndroidMCP.list_packages` with no filter string:
keep `line[8:]` of every line starting with `"package:"`. -/
def parse_packages (stdout : String) : List String :=
  (pySplitStr "\n" (pyStrip stdout)).foldl
    (fun packages line =>
      if listStarts "package:".data line.data then
        packages ++ [String.mk (line.data.drop 8)]
      else packages)
    []

/-- `AndroidMCP.list_packages` (`check=True`). -/
def list_packages (env : Env) (device_id : String) :
    Except PyErr (List String) × List Invocation :=
  let cmd := ["adb", "-s", device_id, "shell", "pm", "list", "packages"]
  let r := env cmd
  (if r.exitcode = 0 then Except.ok (parse_packages r.stdout)
   else Except.error PyErr.calledProcessError, [cmd])

/-- `AndroidMCP.take_screenshot` with the default timestamped output path
(`ts` stands for `time.strftime("%Y%m%d_%H%M%S")`): capture on device,
pull to local, remove on device, all `check=True` and sequential. -/
def take_screenshot (env : Env) (device_id ts : String) :
    Except PyErr String × List Invocation :=
  let output_path := "screenshot_" ++ device_id ++ "_" ++ ts ++ ".png"
  let c1 : Invocation := ["adb", "-s", device_id, "shell", "screencap", "-p", "/sdcard/screenshot.png"]
  if (env c1).exitcode ≠ 0 then (Except.error PyErr.calledProcessError, [c1])
  else
    let c2 : Invocation := ["adb", "-s", device_id, "pull", "/sdcard/screenshot.png", output_path]
    if (env c2).exitcode ≠ 0 then (Except.error PyErr.calledProcessError, [c1, c2])
    else
      let c3 : Invocation := ["adb", "-s", device_id, "shell", "rm", "/sdcard/screenshot.png"]
      if (env c3).exitcode ≠ 0 then (Except.error PyErr.calledProcessError, [c1, c2, c3])
      else (Except.ok output_path, [c1, c2, c3])

/-! ### Maestro flow builder (file-backed, nexuscontrol_maestro.py) -/

/-- The contents of `self.maestro_flow_file`. -/
structure MaestroFlowFile where
  contents : String
deriving Repr, DecidableEq

/-- `AndroidMCP.clear_maestro_flow`: rewrite the file with the header
comment. -/
def clear_maestro_flow : MaestroFlowFile :=
  ⟨"# Maestro Flow generated by Android MCP\n"⟩

/-- `AndroidMCP.append_to_maestro_flow`: append the snippet plus a
newline. -/
def append_to_maestro_flow (m : MaestroFlowFile) (yaml_snippet : String) : MaestroFlowFile :=
  ⟨m.contents ++ yaml_snippet ++ "\n"⟩

/-- `AndroidMCP.maestro_launch_app`: the app-identifier declaration, the
`---` separator and the `- launchApp` step, appended as one snippet. -/
def maestro_launch_app (m : MaestroFlowFile) (package_name : String) : MaestroFlowFile :=
  append_to_maestro_flow m ("appId: " ++ package_name ++ "\n---\n- launchApp\n")

/-- The snippet `maestro_tap` builds for a text selector. -/
def tap_snippet_text (text : String) : String :=
  "- tapOn:\n" ++ "    text: \"" ++ text ++ "\"\n"

/-- The snippet `maestro_tap` builds for an id selector. -/
def tap_snippet_id (i : String) : String :=
  "- tapOn:\n" ++ "    id: \"" ++ i ++ "\"\n"

/-- The snippet `maestro_tap` builds for a point selector (after splitting on
the comma and stripping both halves). -/
def tap_snippet_point (x y : String) : String :=
  "- tapOn:\n" ++ "    point: \"" ++ pyStrip x ++ "," ++ pyStrip y ++ "\"\n"

/-- `AndroidMCP.maestro_tap(text=None, id=None, point=None)`: the selector is
chosen by the `if text: / elif id: / elif point:` chain (Python truthiness);
with no truthy selector it prints an error and returns `False` without
appending; a point that does not split into exactly two parts raises
`ValueError`. -/
def maestro_tap (m : MaestroFlowFile) (text id point : Option String) :
    Except PyErr (Bool × MaestroFlowFile) :=
  if pyTruthy text then
    Except.ok (true, append_to_maestro_flow m (tap_snippet_text (text.getD "")))
  else if pyTruthy id then
    Except.ok (true, append_to_maestro_flow m (tap_snippet_id (id.getD "")))
  else if pyTruthy point then
    match pySplitStr "," (point.getD "") with
    | [x, y] => Except.ok (true, append_to_maestro_flow m (tap_snippet_point x y))
    | _ => Except.error PyErr.valueError
  else
    Except.ok (false, m)

/-- The snippet `maestro_input_text` builds. -/
def input_snippet (text : String) (id : Option String) : String :=
  "- inputText:\n" ++ "    text: \"" ++ text ++ "\"\n" ++
    (if pyTruthy id then "    id: \"" ++ id.getD "" ++ "\"\n" else "")

/-- `AndroidMCP.maestro_input_text(text, id=None)`. -/
def maestro_input_text (m : MaestroFlowFile) (text : String) (id : Option String) :
    Bool × MaestroFlowFile :=
  (true, append_to_maestro_flow m (input_snippet text id))

/-- The snippet `maestro_swipe` builds (after splitting both coordinate
pairs and stripping the four halves). -/
def swipe_snippet (sx sy ex ey : String) : String :=
  "- swipe:\n    start: \"" ++ pyStrip sx ++ "," ++ pyStrip sy ++
  "\"\n    end: \"" ++ pyStrip ex ++ "," ++ pyStrip ey ++ "\"\n"

/-- `AndroidMCP.maestro_swipe(start, end)`; malformed coordinate pairs raise
`ValueError` at the unpacking. -/
def maestro_swipe (m : MaestroFlowFile) (start stop : String) :
    Except PyErr (Bool × MaestroFlowFile) :=
  match pySplitStr "," start, pySplitStr "," stop with
  | [sx, sy], [ex, ey] =>
      Except.ok (true, append_to_maestro_flow m (swipe_snippet sx sy ex ey))
  | _, _ => Except.error PyErr.valueError

/-- The snippet `maestro_assert_visible` builds for a text selector. -/
def assert_snippet_text (text : String) : String :=
  "- assertVisible:\n" ++ "    text: \"" ++ text ++ "\"\n"

/-- The snippet `maestro_assert_visible` builds for an id selector. -/
def assert_snippet_id (i : String) : String :=
  "- assertVisible:\n" ++ "    id: \"" ++ i ++ "\"\n"

/-- `AndroidMCP.maestro_assert_visible(text=None, id=None)`. -/
def maestro_assert_visible (m : MaestroFlowFile) (text id : Option String) :
    Bool × MaestroFlowFile :=
  if pyTruthy text then
    (true, append_to_maestro_flow m (assert_snippet_text (text.getD "")))
  else if pyTruthy id then
    (true, append_to_maestro_flow m (assert_snippet_id (id.getD "")))
  else
    (false, m)

/-- The snippet `maestro_wait` builds; `seconds` is taken already rendered
to text, as the f-string renders the number. -/
def wait_snippet (seconds : String) : String := "- wait: " ++ seconds ++ "\n"

/-- `AndroidMCP.maestro_wait(seconds)`. -/
def maestro_wait (m : MaestroFlowFile) (seconds : String) : Bool × MaestroFlowFile :=
  (true, append_to_maestro_flow m (wait_snippet seconds))

/-- The snippet `maestro_back` builds. -/
def back_snippet : String := "- pressBack\n"

/-- `AndroidMCP.maestro_back()`. -/
def maestro_back (m : MaestroFlowFile) : Bool × MaestroFlowFile :=
  (true, append_to_maestro_flow m back_snippet)

/-- `AndroidMCP.maestro_run_recorded_flow(flow_file, device_id)`: validate
existence first (failing fast with the distinct not-found message and no
invocation), then run the automation binary, success iff exit code 0.
Returns (result, printed messages, invocations); the progress prints other
than the outcome markers are kept to their leading text. -/
def maestro_run_recorded_flow (fileExists : String → Bool) (env : Env)
    (flow_file : String) (device_id : Option String) :
    Bool × List String × List Invocation :=
  if fileExists flow_file then
    let command := ["maestro", "test", flow_file] ++
      (match device_id with
       | some d => ["--device", d]
       | none => [])
    let r := env command
    if r.exitcode = 0 then
      (true, ["🚀 Running recorded Maestro flow from " ++ flow_file ++ "...",
              "✅ Recorded Maestro flow executed successfully"], [command])
    else
      (false, ["🚀 Running recorded Maestro flow from " ++ flow_file ++ "...",
               "❌ Failed to run recorded Maestro flow"], [command])
  else
    (false, ["❌ Flow file not found: " ++ flow_file], [])

end AndroidMCP

/-! ## `AndroidController` (android_mcp/controller.py) -/

namespace AndroidController

/-- The smaller property bag built by `AndroidController.get_device_info`. -/
structure CtrlDeviceInfo where
  model : String
  android_version : String
  battery_level : String
deriving Repr, DecidableEq

/-- `self.device_cache` of the controller. -/
abbrev Cache := List (String × CtrlDeviceInfo)

/-- The battery query of the controller (the source passes this argument
vector together with `shell=True`; the vector is what we record as the
invocation). -/
def q_battery_grep (device_id : String) : Invocation :=
  ["adb", "-s", device_id, "shell", "dumpsys", "battery", "|", "grep", "level"]

/-- The refresh branch of `AndroidController.get_device_info`: three queries;
the battery line is `stdout.strip().split(": ")[1]`, degrading to
`"Unknown"` on `IndexError`. -/
def fresh_device_info (env : Env) (device_id : String) : CtrlDeviceInfo :=
  let model := pyStrip (env (AndroidMCP.q_getprop device_id "ro.product.model")).stdout
  let android_version :=
    pyStrip (env (AndroidMCP.q_getprop device_id "ro.build.version.release")).stdout
  let battery_level :=
    ((pySplitStr ": " (pyStrip (env (q_battery_grep device_id)).stdout)).get? 1).getD "Unknown"
  ⟨model, android_version, battery_level⟩

/-- The full set of property queries one controller refresh issues. -/
def info_queries (device_id : String) : List Invocation :=
  [AndroidMCP.q_getprop device_id "ro.product.model",
   AndroidMCP.q_getprop device_id "ro.build.version.release",
   q_battery_grep device_id]

/-- `AndroidController.get_device_info(device_id, force_refresh)`: same
cache discipline as the `AndroidMCP` variant. -/
def get_device_info (cache : Cache) (env : Env) (device_id : String)
    (force_refresh : Bool) : CtrlDeviceInfo × Cache × List Invocation :=
  match dictGet cache device_id, force_refresh with
  | some info, false => (info, cache, [])
  | _, _ =>
      let info := fresh_device_info env device_id
      (info, dictInsert cache device_id info, info_queries device_id)

/-- The in-memory flow `self.maestro_flow` of the controller. -/
structure Flow where
  maestro_flow : String
deriving Repr, DecidableEq

/-- `AndroidController.clear_maestro_flow`: reset the in-memory flow to the
empty string (the backing file is rewritten with the header comment). -/
def clear_maestro_flow : Flow := ⟨""⟩

/-- `AndroidController.append_to_maestro_flow`: string concatenation. -/
def append_to_maestro_flow (f : Flow) (yaml_snippet : String) : Flow :=
  ⟨f.maestro_flow ++ yaml_snippet⟩

/-- `AndroidController.maestro_run_flow`: refuse an empty flow, otherwise
materialize it to the fixed temporary path and run the automation binary;
success iff exit code 0. -/
def maestro_run_flow (env : Env) (f : Flow) (device_id : Option String) :
    Bool × List Invocation :=
  if f.maestro_flow = "" then (false, [])
  else
    let cmd := ["maestro", "test", "maestro_flows/temp_flow.yaml"] ++
      (match device_id with
       | some d => ["--device", d]
       | none => [])
    (decide ((env cmd).exitcode = 0), [cmd])

end AndroidController

/-! ## CLI flow persistence (nexuscontroller_cli.py) -/

namespace CLI

/-- The save step of `create_and_save_flow`: the file receives the current
in-memory flow verbatim (`f.write(controller.maestro_flow)`). -/
def save_flow (c : AndroidController.Flow) : String := c.maestro_flow

/-- The load step of `execute_maestro_flow(flow_file=...)`:
`clear_maestro_flow()` followed by `append_to_maestro_flow(f.read())`, i.e.
the in-memory flow is replaced by the file contents verbatim. -/
def load_flow (_c : AndroidController.Flow) (file_contents : String) :
    AndroidController.Flow :=
  AndroidController.append_to_maestro_flow AndroidController.clear_maestro_flow file_contents

end CLI

/-! ## JSON values and decimal rendering -/

/-- A JSON value, for request parameters and response payloads. -/
inductive JsonVal where
  | null
  | bool (b : Bool)
  | num (n : Int)
  | str (s : String)
  | arr (xs : List JsonVal)
  | obj (fields : List (String × JsonVal))

/-- Decimal digits of a natural number (fuel-driven so that it evaluates in
the kernel). -/
def natDecAux : Nat → Nat → List Char
  | 0, _ => []
  | fuel + 1, n =>
      if n < 10 then [Char.ofNat (48 + n)]
      else natDecAux fuel (n / 10) ++ [Char.ofNat (48 + n % 10)]

/-- Python `str(n)` for a natural number. -/
def natDec (n : Nat) : String := String.mk (natDecAux (n + 1) n)

/-- Python `str(i)` for an integer. -/
def intDec (i : Int) : String :=
  if i < 0 then "-" ++ natDec i.natAbs else natDec i.natAbs

/-- Rendering of a request field into an error-message f-string.  Only the
string and number cases are exercised by any claim; structured values are
rendered schematically. -/
def jsonText : JsonVal → String
  | JsonVal.str s => s
  | JsonVal.null => "None"
  | JsonVal.bool true => "True"
  | JsonVal.bool false => "False"
  | JsonVal.num n => intDec n
  | JsonVal.arr _ => "[...]"
  | JsonVal.obj _ => "\x7b...\x7d"

/-! ## `MCPAdapter` (mcp_adapter.py)

The adapter holds the session state (`current_device`, the last discovery
snapshot `devices`) and delegates to the process-wide `AndroidMCP` instance,
whose property cache we carry in the same state record.  Each operation
returns the raw Python result dict, the updated state and the external
invocations issued. -/

namespace MCPAdapter

/-- The mutable state shared by all requests: the adapter's binding and
snapshot plus the `AndroidMCP` property cache. -/
structure SysSt where
  current_device : Option String
  devices : List String
  device_cache : AndroidMCP.Cache
deriving Repr, DecidableEq

/-- A result dict such as `{"success": False}`, kept as the literal list of
keys so that the absence of a key is observable. -/
abbrev AdapterResult := List (String × JsonVal)

/-- The unbound-session failure dict `{"success": False}` — note it carries
no message key. -/
def fail_result : AdapterResult := [("success", JsonVal.bool false)]

/-- The success dict `{"success": True}`. -/
def ok_result : AdapterResult := [("success", JsonVal.bool true)]

/-- `result.get("success", False)` (all results produced here store a
boolean under `"success"`). -/
def result_success (r : AdapterResult) : Bool :=
  match dictGet r "success" with
  | some (JsonVal.bool b) => b
  | _ => false

/-- Python truthiness of `self.current_device` (the `if not
self.current_device:` guard). -/
def bound (st : SysSt) : Bool := pyTruthy st.current_device

/-- `MCPAdapter.refresh_devices`: replace the snapshot with a fresh device
list, or with `[]` when the bridge invocation raises. -/
def refresh_devices (st : SysSt) (env : Env) : SysSt × List Invocation :=
  match AndroidMCP.get_devices env with
  | (Except.ok l, tr) => ({ st with devices := l }, tr)
  | (Except.error _, tr) => ({ st with devices := [] }, tr)

/-- `MCPAdapter.use_device`: bind if the id is in the cached snapshot;
otherwise refresh once and re-check; on failure return `{"success": False}`
leaving the binding untouched. -/
def use_device (st : SysSt) (env : Env) (device_id : String) :
    AdapterResult × SysSt × List Invocation :=
  if device_id ∈ st.devices then
    (ok_result, { st with current_device := some device_id }, [])
  else
    let (st1, tr) := refresh_devices st env
    if device_id ∈ st1.devices then
      (ok_result, { st1 with current_device := some device_id }, tr)
    else
      (fail_result, st1, tr)

/-- `MCPAdapter.take_screenshot`: guard, then the three-step capture; read
and base64-encode the pulled file (`b64` abstracts the encoding, `fs` the
local filesystem). -/
def take_screenshot (st : SysSt) (env : Env) (fs : FS) (b64 : String → String)
    (ts : String) : AdapterResult × SysSt × List Invocation :=
  if !bound st then (fail_result, st, [])
  else
    let dev := st.current_device.getD ""
    match AndroidMCP.take_screenshot env dev ts with
    | (Except.error _, tr) => (fail_result, st, tr)
    | (Except.ok screenshot_path, tr) =>
        match fs screenshot_path with
        | some image_data =>
            ([("success", JsonVal.bool true), ("image", JsonVal.str (b64 image_data))], st, tr)
        | none => (fail_result, st, tr)

/-- `MCPAdapter.list_apps`. -/
def list_apps (st : SysSt) (env : Env) : AdapterResult × SysSt × List Invocation :=
  if !bound st then (fail_result, st, [])
  else
    match AndroidMCP.list_packages env (st.current_device.getD "") with
    | (Except.ok packages, tr) =>
        ([("success", JsonVal.bool true),
          ("packages", JsonVal.arr (packages.map JsonVal.str))], st, tr)
    | (Except.error _, tr) => (fail_result, st, tr)

/-- `MCPAdapter.launch_app`: a `monkey` shell invocation; the shell helper
never raises, so the result is always success once bound. -/
def launch_app (st : SysSt) (env : Env) (package_name : String) :
    AdapterResult × SysSt × List Invocation :=
  if !bound st then (fail_result, st, [])
  else
    let (_, tr) := AndroidMCP.run_shell_command env (st.current_device.getD "")
      ("monkey -p " ++ package_name ++ " -c android.intent.category.LAUNCHER 1")
    (ok_result, st, tr)

/-- `MCPAdapter.terminate_app`. -/
def terminate_app (st : SysSt) (env : Env) (package_name : String) :
    AdapterResult × SysSt × List Invocation :=
  if !bound st then (fail_result, st, [])
  else
    let (_, tr) := AndroidMCP.run_shell_command env (st.current_device.getD "")
      ("am force-stop " ++ package_name)
    (ok_result, st, tr)

/-- The parse of one `wm size` line in `get_screen_size`:
`line.split(":")[1].strip()` then `map(int, size.split("x"))` unpacked into
exactly two ints; `none` where Python raises. -/
def parse_wm_line (line : String) : Option (Int × Int) :=
  match (pySplitStr ":" line).get? 1 with
  | none => none
  | some second =>
      match pySplitStr "x" (pyStrip second) with
      | [w, h] =>
          match pyInt w, pyInt h with
          | some wi, some hi => some (wi, hi)
          | _, _ => none
      | _ => none

/-- `MCPAdapter.get_screen_size`: run `wm size`, return width/height from
the first line containing `"Physical size"`; any parse failure or missing
line degrades to `{"success": False}`. -/
def get_screen_size (st : SysSt) (env : Env) : AdapterResult × SysSt × List Invocation :=
  if !bound st then (fail_result, st, [])
  else
    let (out, tr) := AndroidMCP.run_shell_command env (st.current_device.getD "") "wm size"
    match (pySplitStr "\n" out).find? (fun l => strContains l "Physical size") with
    | none => (fail_result, st, tr)
    | some line =>
        match parse_wm_line line with
        | some (w, h) =>
            ([("success", JsonVal.bool true),
              ("width", JsonVal.num w), ("height", JsonVal.num h)], st, tr)
        | none => (fail_result, st, tr)

/-- `MCPAdapter.tap_screen`. -/
def tap_screen (st : SysSt) (env : Env) (x y : Int) :
    AdapterResult × SysSt × List Invocation :=
  if !bound st then (fail_result, st, [])
  else
    match AndroidMCP.tap_screen env (st.current_device.getD "") x y with
    | (Except.ok _, tr) => (ok_result, st, tr)
    | (Except.error _, tr) => (fail_result, st, tr)

/-- `MCPAdapter.swipe_screen(direction)`: query the screen size first, then
compute the swipe endpoints for `"up"`/`"down"` and delegate; any failure or
unknown direction yields `{"success": False}`. -/
def swipe_screen (st : SysSt) (env : Env) (direction : String) :
    AdapterResult × SysSt × List Invocation :=
  if !bound st then (fail_result, st, [])
  else
    let (size_result, _, tr1) := get_screen_size st env
    if !result_success size_result then (fail_result, st, tr1)
    else
      let w := match dictGet size_result "width" with
        | some (JsonVal.num n) => n
        | _ => 0
      let h := match dictGet size_result "height" with
        | some (JsonVal.num n) => n
        | _ => 0
      let lower := pyLower direction
      if lower = "up" then
        match AndroidMCP.swipe_screen env (st.current_device.getD "")
            (w.fdiv 2) ((h * 2).fdiv 3) (w.fdiv 2) (h.fdiv 3) 300 with
        | (Except.ok _, tr2) => (ok_result, st, tr1 ++ tr2)
        | (Except.error _, tr2) => (fail_result, st, tr1 ++ tr2)
      else if lower = "down" then
        match AndroidMCP.swipe_screen env (st.current_device.getD "")
            (w.fdiv 2) (h.fdiv 3) (w.fdiv 2) ((h * 2).fdiv 3) 300 with
        | (Except.ok _, tr2) => (ok_result, st, tr1 ++ tr2)
        | (Except.error _, tr2) => (fail_result, st, tr1 ++ tr2)
      else (fail_result, st, tr1)

/-- `MCPAdapter.type_keys(text, submit)`: send the text, then `ENTER`
(keycode 66) when `submit` is set. -/
def type_keys (st : SysSt) (env : Env) (text : String) (submit : Bool) :
    AdapterResult × SysSt × List Invocation :=
  if !bound st then (fail_result, st, [])
  else
    match AndroidMCP.send_text env (st.current_device.getD "") text with
    | (Except.error _, tr1) => (fail_result, st, tr1)
    | (Except.ok _, tr1) =>
        if submit then
          match AndroidMCP.send_keyevent env (st.current_device.getD "") 66 with
          | (Except.ok _, tr2) => (ok_result, st, tr1 ++ tr2)
          | (Except.error _, tr2) => (fail_result, st, tr1 ++ tr2)
        else (ok_result, st, tr1)

/-- The literal `button_map` of `MCPAdapter.press_button` (the FastMCP
server repeats the same literal map). -/
def button_map (b : String) : Option Int :=
  if b = "BACK" then some 4
  else if b = "HOME" then some 3
  else if b = "VOLUME_UP" then some 24
  else if b = "VOLUME_DOWN" then some 25
  else if b = "ENTER" then some 66
  else none

/-- `MCPAdapter.press_button(button)`: upper-case the name, reject unknown
buttons without any invocation, otherwise send the mapped keycode. -/
def press_button (st : SysSt) (env : Env) (button : String) :
    AdapterResult × SysSt × List Invocation :=
  if !bound st then (fail_result, st, [])
  else
    match button_map (pyUpper button) with
    | none => (fail_result, st, [])
    | some keycode =>
        match AndroidMCP.send_keyevent env (st.current_device.getD "") keycode with
        | (Except.ok _, tr) => (ok_result, st, tr)
        | (Except.error _, tr) => (fail_result, st, tr)

/-- `MCPAdapter.open_url`. -/
def open_url (st : SysSt) (env : Env) (url : String) :
    AdapterResult × SysSt × List Invocation :=
  if !bound st then (fail_result, st, [])
  else
    let (_, tr) := AndroidMCP.run_shell_command env (st.current_device.getD "")
      ("am start -a android.intent.action.VIEW -d " ++ url)
    (ok_result, st, tr)

/-- `MCPAdapter.list_elements_on_screen`: dump the UI tree on device, pull
it, parse it (`parseXml` abstracts `ElementTree` plus the node filter) and
clean up; when the pulled file is absent the cleanup `os.remove` raises
first, so the on-device `rm` is skipped. -/
def list_elements_on_screen (st : SysSt) (env : Env) (fs : FS)
    (parseXml : String → Option (List JsonVal)) (ts : String) :
    AdapterResult × SysSt × List Invocation :=
  if !bound st then (fail_result, st, [])
  else
    let dev := st.current_device.getD ""
    let (_, tr1) := AndroidMCP.run_shell_command env dev "uiautomator dump /sdcard/window_dump.xml"
    let temp_xml := "/tmp/window_dump_" ++ ts ++ ".xml"
    let (_, tr2) := AndroidMCP.pull_file env dev "/sdcard/window_dump.xml" temp_xml
    match fs temp_xml with
    | none => (fail_result, st, tr1 ++ tr2)
    | some xml =>
        let (_, tr3) := AndroidMCP.run_shell_command env dev "rm /sdcard/window_dump.xml"
        match parseXml xml with
        | none => (fail_result, st, tr1 ++ tr2 ++ tr3)
        | some elements =>
            ([("success", JsonVal.bool true), ("elements", JsonVal.arr elements)],
             st, tr1 ++ tr2 ++ tr3)

/-- `MCPAdapter.list_devices`: refresh the snapshot, then build one entry
per device, consulting (and possibly filling) the property cache. -/
def list_devices (st : SysSt) (env : Env) :
    List JsonVal × SysSt × List Invocation :=
  let (st1, tr1) := refresh_devices st env
  let step := fun (acc : List JsonVal × AndroidMCP.Cache × List Invocation) (device_id : String) =>
    let (entries, cache, tr) := acc
    let (info, cache1, trq) := AndroidMCP.get_device_info cache env device_id false
    (entries ++ [JsonVal.obj [("id", JsonVal.str device_id),
                              ("name", JsonVal.str info.model),
                              ("type", JsonVal.str "android")]],
     cache1, tr ++ trq)
  let (entries, cache, tr2) := st1.devices.foldl step ([], st1.device_cache, [])
  (entries, { st1 with device_cache := cache }, tr1 ++ tr2)

end MCPAdapter

/-! ## `handle_mcp_request` (mcp_adapter.py) -/

namespace MCPAdapter

/-- A parsed request object (a JSON dict).  The embedding takes the parse
outcome of `json.loads`: `Except.error msg` stands for an input that is not
a valid JSON object (the message is the exception text), covering both
`json.JSONDecodeError` and the `AttributeError` of a non-dict top level,
either of which reaches the outer `except` clause. -/
abbrev RpcInput := Except String (List (String × JsonVal))

/-- The JSON-RPC error member. -/
structure RpcError where
  code : Int
  message : String
deriving Repr, DecidableEq

/-- The response dict: both the result and error members are kept optional,
mirroring the Python dict to which either key may or may not be added. -/
structure RpcResponse where
  jsonrpc : String
  id : JsonVal
  result? : Option JsonVal
  error? : Option RpcError

/-- `params.get(key, default)` for a string-valued parameter.  Parameters of
an unexpected JSON type are defaulted; no claim depends on such inputs. -/
def pyGetStr (params : List (String × JsonVal)) (key dflt : String) : String :=
  match dictGet params key with
  | some (JsonVal.str s) => s
  | _ => dflt

/-- `params.get(key, default)` for a boolean parameter. -/
def pyGetBool (params : List (String × JsonVal)) (key : String) (dflt : Bool) : Bool :=
  match dictGet params key with
  | some (JsonVal.bool b) => b
  | _ => dflt

/-- `params.get(key, default)` for a numeric parameter. -/
def pyGetInt (params : List (String × JsonVal)) (key : String) (dflt : Int) : Int :=
  match dictGet params key with
  | some (JsonVal.num n) => n
  | _ => dflt

/-- `result.get("image", "")`-style extraction of a string payload. -/
def resultGetStr (r : AdapterResult) (key dflt : String) : String :=
  match dictGet r key with
  | some (JsonVal.str s) => s
  | _ => dflt

/-- `result.get(key, [])`-style extraction of a list payload. -/
def resultGetArr (r : AdapterResult) (key : String) : List JsonVal :=
  match dictGet r key with
  | some (JsonVal.arr xs) => xs
  | _ => []

/-- `result.get(key, 0)`-style extraction of a numeric payload. -/
def resultGetInt (r : AdapterResult) (key : String) : Int :=
  match dictGet r key with
  | some (JsonVal.num n) => n
  | _ => 0

/-- A response carrying a result member. -/
def respOk (id : JsonVal) (v : JsonVal) : RpcResponse :=
  ⟨"2.0", id, some v, none⟩

/-- A response carrying an error member. -/
def respErr (id : JsonVal) (code : Int) (message : String) : RpcResponse :=
  ⟨"2.0", id, none, some ⟨code, message⟩⟩

/-- Map an adapter result to the fixed envelope: the success payload `v` on
`result.get("success", False)`, else error `-32000` with the fixed
message. -/
def envelope (id : JsonVal) (result : AdapterResult) (v : JsonVal) (failMsg : String) :
    RpcResponse :=
  if result_success result then respOk id v else respErr id (-32000) failMsg

/-- The string-method dispatch of `handle_mcp_request` (the body of the
inner `try`).  Unknown method names fall through to the `-32601` error. -/
def dispatch (m : String) (id : JsonVal) (params : List (String × JsonVal))
    (st : SysSt) (env : Env) (fs : FS) (b64 : String → String)
    (parseXml : String → Option (List JsonVal)) (ts : String) :
    RpcResponse × SysSt × List Invocation :=
  if m = "mcp.mobile_list_available_devices" then
    let (devices, st1, tr) := list_devices st env
    (respOk id (JsonVal.arr devices), st1, tr)
  else if m = "mcp.mobile_use_device" then
    let device := pyGetStr params "device" ""
    let (result, st1, tr) := use_device st env device
    (envelope id result (JsonVal.bool true) "Failed to use device", st1, tr)
  else if m = "mcp.mobile_take_screenshot" then
    let (result, st1, tr) := take_screenshot st env fs b64 ts
    (envelope id result (JsonVal.str (resultGetStr result "image" ""))
      "Failed to take screenshot", st1, tr)
  else if m = "mcp.mobile_list_apps" then
    let (result, st1, tr) := list_apps st env
    (envelope id result (JsonVal.arr (resultGetArr result "packages"))
      "Failed to list apps", st1, tr)
  else if m = "mcp.mobile_launch_app" then
    let package_name := pyGetStr params "packageName" ""
    let (result, st1, tr) := launch_app st env package_name
    (envelope id result (JsonVal.bool true) "Failed to launch app", st1, tr)
  else if m = "mcp.mobile_terminate_app" then
    let package_name := pyGetStr params "packageName" ""
    let (result, st1, tr) := terminate_app st env package_name
    (envelope id result (JsonVal.bool true) "Failed to terminate app", st1, tr)
  else if m = "mcp.mobile_get_screen_size" then
    let (result, st1, tr) := get_screen_size st env
    (envelope id result
      (JsonVal.obj [("width", JsonVal.num (resultGetInt result "width")),
                    ("height", JsonVal.num (resultGetInt result "height"))])
      "Failed to get screen size", st1, tr)
  else if m = "mcp.mobile_click_on_screen_at_coordinates" then
    let x := pyGetInt params "x" 0
    let y := pyGetInt params "y" 0
    let (result, st1, tr) := tap_screen st env x y
    (envelope id result (JsonVal.bool true) "Failed to tap screen", st1, tr)
  else if m = "mcp.swipe_on_screen" then
    let direction := pyGetStr params "direction" ""
    let (result, st1, tr) := swipe_screen st env direction
    (envelope id result (JsonVal.bool true) "Failed to swipe screen", st1, tr)
  else if m = "mcp.mobile_type_keys" then
    let text := pyGetStr params "text" ""
    let submit := pyGetBool params "submit" false
    let (result, st1, tr) := type_keys st env text submit
    (envelope id result (JsonVal.bool true) "Failed to type text", st1, tr)
  else if m = "mcp.mobile_press_button" then
    let button := pyGetStr params "button" ""
    let (result, st1, tr) := press_button st env button
    (envelope id result (JsonVal.bool true) "Failed to press button", st1, tr)
  else if m = "mcp.mobile_open_url" then
    let url := pyGetStr params "url" ""
    let (result, st1, tr) := open_url st env url
    (envelope id result (JsonVal.bool true) "Failed to open URL", st1, tr)
  else if m = "mcp.mobile_list_elements_on_screen" then
    let (result, st1, tr) := list_elements_on_screen st env fs parseXml ts
    (envelope id result (JsonVal.arr (resultGetArr result "elements"))
      "Failed to list elements", st1, tr)
  else
    (respErr id (-32601) ("Method not found: " ++ m), st, [])

/-- The `method`-driven routing on a successfully parsed request object:
read `id`, `method` and `params` with their defaults and dispatch.  A
non-string `method` value matches none of the method-name comparisons and
lands on the `-32601` branch with the value rendered into the message. -/
def handle_request (request : List (String × JsonVal)) (st : SysSt) (env : Env) (fs : FS)
    (b64 : String → String) (parseXml : String → Option (List JsonVal)) (ts : String) :
    RpcResponse × SysSt × List Invocation :=
  let id := (dictGet request "id").getD (JsonVal.num 0)
  let params := match dictGet request "params" with
    | some (JsonVal.obj o) => o
    | _ => []
  match (dictGet request "method").getD (JsonVal.str "") with
  | JsonVal.str m => dispatch m id params st env fs b64 parseXml ts
  | other => (respErr id (-32601) ("Method not found: " ++ jsonText other), st, [])

/-- `handle_mcp_request`: parse failures yield the outer `-32000` envelope
with id 0; every other input is routed by `handle_request`. -/
def handle_mcp_request (input : RpcInput) (st : SysSt) (env : Env) (fs : FS)
    (b64 : String → String) (parseXml : String → Option (List JsonVal)) (ts : String) :
    RpcResponse × SysSt × List Invocation :=
  match input with
  | Except.error emsg =>
      (⟨"2.0", JsonVal.num 0, none, some ⟨-32000, "Error handling request: " ++ emsg⟩⟩, st, [])
  | Except.ok request => handle_request request st env fs b64 parseXml ts

/-- The method names `handle_mcp_request` routes (every other name reaches
the `-32601` branch). -/
def known_methods : List String :=
  ["mcp.mobile_list_available_devices", "mcp.mobile_use_device",
   "mcp.mobile_take_screenshot", "mcp.mobile_list_apps",
   "mcp.mobile_launch_app", "mcp.mobile_terminate_app",
   "mcp.mobile_get_screen_size", "mcp.mobile_click_on_screen_at_coordinates",
   "mcp.swipe_on_screen", "mcp.mobile_type_keys", "mcp.mobile_press_button",
   "mcp.mobile_open_url", "mcp.mobile_list_elements_on_screen"]

end MCPAdapter

/-! ## FastMCP server tools (mcp_server.py)

The tool functions share one module-global `current_device`; a tool signals
failure by raising, which we model as `Except.error` carrying the exception
message. -/

namespace MCPServer

/-- The rendering of a propagated Python exception into the wrapping
f-string (`str(e)`); the text of library exceptions is abstracted by the
class name. -/
def pyErrText : PyErr → String
  | PyErr.calledProcessError => "CalledProcessError"
  | PyErr.valueError => "ValueError"

/-- `use_device(device, deviceType)` of the FastMCP server: validate against
a freshly fetched device list; bind and return `True` on success, raise on
every failure.  The returned option is the value of the `current_device`
global after the call. -/
def use_device (cur : Option String) (env : Env) (device : String) :
    Except String Bool × Option String × List Invocation :=
  if device = "" then
    (Except.error "Failed to use device: Missing required parameter: device", cur, [])
  else
    match AndroidMCP.get_devices env with
    | (Except.error e, tr) =>
        (Except.error ("Failed to use device: " ++ pyErrText e), cur, tr)
    | (Except.ok devices, tr) =>
        if device ∈ devices then (Except.ok true, some device, tr)
        else
          (Except.error ("Failed to use device: Device " ++ device ++ " not found"), cur, tr)

/-- `take_screenshot()` of the FastMCP server: the unbound guard raises
`"No device selected"` before anything else runs. -/
def take_screenshot (cur : Option String) (env : Env) (fs : FS)
    (b64 : String → String) (ts : String) : Except String String × List Invocation :=
  if !pyTruthy cur then (Except.error "No device selected", [])
  else
    match AndroidMCP.take_screenshot env (cur.getD "") ts with
    | (Except.error e, tr) =>
        (Except.error ("Failed to take screenshot: " ++ pyErrText e), tr)
    | (Except.ok path, tr) =>
        match fs path with
        | some image_data => (Except.ok (b64 image_data), tr)
        | none => (Except.error "Failed to take screenshot: Failed to capture screenshot", tr)

/-- `list_apps()` of the FastMCP server. -/
def list_apps (cur : Option String) (env : Env) :
    Except String (List String) × List Invocation :=
  if !pyTruthy cur then (Except.error "No device selected", [])
  else
    match AndroidMCP.list_packages env (cur.getD "") with
    | (Except.ok packages, tr) => (Except.ok packages, tr)
    | (Except.error e, tr) => (Except.error ("Failed to list apps: " ++ pyErrText e), tr)

/-- `press_button(button)` of the FastMCP server (the `send_keyevent` path):
guard first, then the required-parameter check, then the literal button map
(no upper-casing here), then the keyevent. -/
def press_button (cur : Option String) (env : Env) (button : String) :
    Except String Bool × List Invocation :=
  if !pyTruthy cur then (Except.error "No device selected", [])
  else if button = "" then
    (Except.error "Failed to press button: Missing required parameter: button", [])
  else
    match MCPAdapter.button_map button with
    | none => (Except.error ("Failed to press button: Invalid button: " ++ button), [])
    | some keycode =>
        match AndroidMCP.send_keyevent env (cur.getD "") keycode with
        | (Except.ok _, tr) => (Except.ok true, tr)
        | (Except.error e, tr) =>
            (Except.error ("Failed to press button: " ++ pyErrText e), tr)

end MCPServer

/-! ## Lines and steps of a flow file

The flow-file format is newline-delimited; a step of the §3 data model shows
up either as the `appId:` declaration line or as a line opening with `"- "`
(`- launchApp`, `- tapOn:`, …), continuation lines being indented by four
spaces.  `splitLines` decomposes a file on `'\n'` treated as a separator
(like Python `str.split("\n")`). -/

/-- One step of the newline decomposition. -/
def splitLinesStep (c : Char) (acc : List (List Char)) : List (List Char) :=
  if c = '\n' then [] :: acc
  else
    match acc with
    | l :: ls => (c :: l) :: ls
    | [] => [[c]]

/-- Decompose a character list into its lines. -/
def splitLines (cs : List Char) : List (List Char) := cs.foldr splitLinesStep [[]]

/-- The lines of a string. -/
def linesOf (s : String) : List String := (splitLines s.data).map String.mk

/-- Is this line a step of the flow (the app declaration or a `"- "` step
line)? -/
def isStepLine (l : List Char) : Bool :=
  listStarts "appId:".data l || listStarts "- ".data l

/-- The number of steps a flow file records. -/
def stepCount (s : String) : Nat := ((splitLines s.data).filter isStepLine).length

/-- Does the string avoid the newline character? -/
def noNL (s : String) : Bool := s.data.all (fun c => decide (c ≠ '\n'))

namespace AndroidMCP

/-- One interaction step of the §3 data model, as the flow-construction
helpers of `AndroidMCP` build it. -/
inductive MStep where
  | tapText (t : String)
  | tapId (i : String)
  | tapPoint (x y : String)
  | inputTextOnly (t : String)
  | inputTextWithId (t i : String)
  | swipeStep (sx sy ex ey : String)
  | waitStep (seconds : String)
  | backStep
  | assertVisText (t : String)
  | assertVisId (i : String)
deriving Repr, DecidableEq

/-- The snippet each step kind appends, via the same snippet builders the
`maestro_*` functions use. -/
def stepSnippet : MStep → String
  | MStep.tapText t => tap_snippet_text t
  | MStep.tapId i => tap_snippet_id i
  | MStep.tapPoint x y => tap_snippet_point x y
  | MStep.inputTextOnly t => input_snippet t none
  | MStep.inputTextWithId t i => input_snippet t (some i)
  | MStep.swipeStep sx sy ex ey => swipe_snippet sx sy ex ey
  | MStep.waitStep seconds => wait_snippet seconds
  | MStep.backStep => back_snippet
  | MStep.assertVisText t => assert_snippet_text t
  | MStep.assertVisId i => assert_snippet_id i

/-- The embedded user strings carry no newline (so a step cannot smuggle
extra lines into the file); an inputText id must moreover be non-empty to
take the id branch of the builder. -/
def stepWF : MStep → Bool
  | MStep.tapText t => noNL t
  | MStep.tapId i => noNL i
  | MStep.tapPoint x y => noNL x && noNL y
  | MStep.inputTextOnly t => noNL t
  | MStep.inputTextWithId t i => noNL t && noNL i && decide (i ≠ "")
  | MStep.swipeStep sx sy ex ey => noNL sx && noNL sy && noNL ex && noNL ey
  | MStep.waitStep seconds => noNL seconds
  | MStep.backStep => true
  | MStep.assertVisText t => noNL t
  | MStep.assertVisId i => noNL i

/-- The lines of one appended step snippet (without the blank line the
appender's extra newline contributes). -/
def stepLineList : MStep → List String
  | MStep.tapText t => ["- tapOn:", "    text: \"" ++ t ++ "\""]
  | MStep.tapId i => ["- tapOn:", "    id: \"" ++ i ++ "\""]
  | MStep.tapPoint x y => ["- tapOn:", "    point: \"" ++ pyStrip x ++ "," ++ pyStrip y ++ "\""]
  | MStep.inputTextOnly t => ["- inputText:", "    text: \"" ++ t ++ "\""]
  | MStep.inputTextWithId t i =>
      ["- inputText:", "    text: \"" ++ t ++ "\"", "    id: \"" ++ i ++ "\""]
  | MStep.swipeStep sx sy ex ey =>
      ["- swipe:", "    start: \"" ++ pyStrip sx ++ "," ++ pyStrip sy ++ "\"",
       "    end: \"" ++ pyStrip ex ++ "," ++ pyStrip ey ++ "\""]
  | MStep.waitStep seconds => ["- wait: " ++ seconds]
  | MStep.backStep => ["- pressBack"]
  | MStep.assertVisText t => ["- assertVisible:", "    text: \"" ++ t ++ "\""]
  | MStep.assertVisId i => ["- assertVisible:", "    id: \"" ++ i ++ "\""]

/-- The build of claim C7: clear the flow, append the app declaration
followed by launch-app (`maestro_launch_app` emits both), then the
interaction steps in order. -/
def build_flow (pkg : String) (steps : List MStep) : MaestroFlowFile :=
  steps.foldl (fun m st => append_to_maestro_flow m (stepSnippet st))
    (maestro_launch_app clear_maestro_flow pkg)

/-- The text the interaction-step appends contribute to the flow file (each
append adds the snippet plus one newline). -/
def flow_body : List MStep → String
  | [] => ""
  | st :: rest => (stepSnippet st ++ "\n") ++ flow_body rest

end AndroidMCP

/-! ## Concrete fixtures

Closed instances of the abstract parameters, used by counterexamples and
witnesses. -/

/-- The device list a refresh reports in `env` (what `adb devices` parses
to right now — the latest discovery result). -/
def refreshed_devices (env : Env) : List String :=
  AndroidMCP.parse_devices (env AndroidMCP.adb_devices_cmd).stdout

/-- An environment where every invocation succeeds with empty output. -/
def envOk : Env := fun _ => ⟨"", "", 0⟩

/-- An environment whose device listing is just the header line: the
refreshed device list is empty. -/
def envHeaderOnly : Env := fun _ => ⟨"List of devices attached", "", 0⟩

/-- An environment whose device listing reports one authorized and one
unauthorized device. -/
def envTwoDevices : Env :=
  fun _ => ⟨"List of devices attached\nABC123\tdevice\nDEF456\tunauthorized", "", 0⟩

/-- The empty local filesystem. -/
def fsEmpty : FS := fun _ => none

/-- A concrete instance of the abstract base64-encoder parameter. -/
def idEncode : String → String := fun s => s

/-- A concrete instance of the abstract XML-parser parameter. -/
def parseNone : String → Option (List JsonVal) := fun _ => none

/-- A path-existence oracle with no files. -/
def noFile : String → Bool := fun _ => false

/-- An unbound adapter state with an empty snapshot. -/
def stUnbound : MCPAdapter.SysSt := ⟨none, [], []⟩

/-- An unbound adapter state whose stale snapshot still lists `ABC123`. -/
def stStale : MCPAdapter.SysSt := ⟨none, ["ABC123"], []⟩

/-- A concrete flow file: app declaration plus launch, then one wait step. -/
def c7_file : String :=
  (AndroidMCP.build_flow "com.example.app" [AndroidMCP.MStep.waitStep "1"]).contents

/-! ## Helper lemmas -/

/-- Inserting then looking up the same key. -/
theorem dictGet_dictInsert {α : Type} (d : List (String × α)) (k : String) (v : α) :
    dictGet (dictInsert d k v) k = some v := by
  induction d with
  | nil => simp [dictInsert, dictGet]
  | cons hd tl ih =>
      obtain ⟨k0, v0⟩ := hd
      by_cases h : k0 = k
      · simp [dictInsert, dictGet, h]
      · simp [dictInsert, dictGet, h, ih]

/-- The space-escaping fold is the pointwise character expansion. -/
theorem escape_foldr_eq_bind (cs : List Char) :
    cs.foldr (fun c acc => if c = ' ' then '%' :: 's' :: acc else c :: acc) [] =
      cs.flatMap (fun c => if c = ' ' then ['%', 's'] else [c]) := by
  induction cs with
  | nil => rfl
  | cons c rest ih =>
      by_cases h : c = ' ' <;> simp [h, ih]

/-! ## Claim C3 -/

/-- Claim C3: for every in-memory flow, saving it to a file
(`create_and_save_flow` writes `controller.maestro_flow` verbatim) and then
loading that file back (`execute_maestro_flow`: `clear_maestro_flow`
followed by `append_to_maestro_flow` of the file contents) yields an
in-memory flow byte-for-byte equal to the original, with the ordered line
sequence preserved exactly. -/
theorem C3_flow_round_trip (c c' : AndroidController.Flow) :
    CLI.load_flow c' (CLI.save_flow c) = c ∧
    linesOf (CLI.load_flow c' (CLI.save_flow c)).maestro_flow = linesOf c.maestro_flow := by
  constructor
  · rfl
  · rfl

/-! ## Claim C9 -/

/-- Claim C9: `send_text` replaces each space character of the input with
the two-character sequence `%s`, passes every other character through
unchanged, and injects exactly the escaped value into the external input
command's argument list. -/
theorem C9_send_text_escapes_spaces (env : Env) (device_id text : String) :
    (AndroidMCP.send_text env device_id text).2 =
      [["adb", "-s", device_id, "shell", "input", "text", AndroidMCP.send_text_escape text]] ∧
    (AndroidMCP.send_text_escape text).data =
      text.data.flatMap (fun c => if c = ' ' then ['%', 's'] else [c]) := by
  refine ⟨rfl, ?_⟩
  exact escape_foldr_eq_bind text.data

/-! ## Claim C8 -/

/-- Claim C8: running a saved flow against a path that does not exist fails
fast: `maestro_run_recorded_flow` returns failure, prints the distinct
not-found message, and launches no external process — the existence check
precedes the runner invocation, which only happens for existing paths. -/
theorem C8_run_recorded_flow_missing_file (fileExists : String → Bool) (env : Env)
    (flow_file : String) (device_id : Option String) :
    (fileExists flow_file = false →
      (AndroidMCP.maestro_run_recorded_flow fileExists env flow_file device_id).1 = false ∧
      (AndroidMCP.maestro_run_recorded_flow fileExists env flow_file device_id).2.1 =
        ["❌ Flow file not found: " ++ flow_file] ∧
      (AndroidMCP.maestro_run_recorded_flow fileExists env flow_file device_id).2.2 = []) ∧
    (fileExists flow_file = true →
      (AndroidMCP.maestro_run_recorded_flow fileExists env flow_file device_id).2.2 =
        [["maestro", "test", flow_file] ++
          (match device_id with
           | some d => ["--device", d]
           | none => [])]) := by
  constructor
  · intro h
    simp [AndroidMCP.maestro_run_recorded_flow, h]
  · intro h
    unfold AndroidMCP.maestro_run_recorded_flow
    rw [if_pos h]
    split <;> (dsimp only; split <;> rfl)

/-- Witness for C8 at a concrete absent path. -/
theorem C8_witness :
    (AndroidMCP.maestro_run_recorded_flow noFile envOk "missing_flow.yaml" none).1 = false ∧
    (AndroidMCP.maestro_run_recorded_flow noFile envOk "missing_flow.yaml" none).2.1 =
      ["❌ Flow file not found: missing_flow.yaml"] ∧
    (AndroidMCP.maestro_run_recorded_flow noFile envOk "missing_flow.yaml" none).2.2 = [] :=
  (C8_run_recorded_flow_missing_file noFile envOk "missing_flow.yaml" none).1 rfl

/-! ## Claim C6 -/

/-- Claim C6: `maestro_tap` with no truthy selector returns a failure and
leaves the accumulated flow unchanged; with several selectors supplied the
first present one in the fixed order text, id, point is the single one
serialized into the appended step (a selector is "supplied" when it is
truthy in Python, i.e. present and non-empty). -/
theorem C6_maestro_tap_selector_precedence (m : AndroidMCP.MaestroFlowFile)
    (text id point : Option String) :
    (pyTruthy text = false → pyTruthy id = false → pyTruthy point = false →
      AndroidMCP.maestro_tap m text id point = Except.ok (false, m)) ∧
    (pyTruthy text = true →
      AndroidMCP.maestro_tap m text id point =
        Except.ok (true, AndroidMCP.append_to_maestro_flow m
          (AndroidMCP.tap_snippet_text (text.getD "")))) ∧
    (pyTruthy text = false → pyTruthy id = true →
      AndroidMCP.maestro_tap m text id point =
        Except.ok (true, AndroidMCP.append_to_maestro_flow m
          (AndroidMCP.tap_snippet_id (id.getD "")))) ∧
    (pyTruthy text = false → pyTruthy id = false → pyTruthy point = true →
      ∀ x y, pySplitStr "," (point.getD "") = [x, y] →
        AndroidMCP.maestro_tap m text id point =
          Except.ok (true, AndroidMCP.append_to_maestro_flow m
            (AndroidMCP.tap_snippet_point x y))) := by
  refine ⟨?_, ?_, ?_, ?_⟩
  · intro ht hi hp
    simp [AndroidMCP.maestro_tap, ht, hi, hp]
  · intro ht
    simp [AndroidMCP.maestro_tap, ht]
  · intro ht hi
    simp [AndroidMCP.maestro_tap, ht, hi]
  · intro ht hi hp x y hxy
    simp [AndroidMCP.maestro_tap, ht, hi, hp, hxy]

/-- Witness for C6: no selector leaves the flow untouched; with a text, an
id and a point all supplied the text selector is the one serialized. -/
theorem C6_witness :
    AndroidMCP.maestro_tap AndroidMCP.clear_maestro_flow none none none =
      Except.ok (false, AndroidMCP.clear_maestro_flow) ∧
    AndroidMCP.maestro_tap AndroidMCP.clear_maestro_flow
        (some "OK") (some "widget_id") (some "10,20") =
      Except.ok (true, AndroidMCP.append_to_maestro_flow AndroidMCP.clear_maestro_flow
        (AndroidMCP.tap_snippet_text "OK")) :=
  ⟨(C6_maestro_tap_selector_precedence AndroidMCP.clear_maestro_flow none none none).1
      rfl rfl rfl,
   (C6_maestro_tap_selector_precedence AndroidMCP.clear_maestro_flow
      (some "OK") (some "widget_id") (some "10,20")).2.1 rfl⟩

/-! ## Claim C5 -/

/-- Claim C5: for a device already cached, a second `get_device_info` call
without `force_refresh` returns the identical cached bag with zero
additional external invocations and an unchanged cache; with
`force_refresh=true` the call issues the fresh full set of property queries
and replaces the cache entry wholesale with a bag computed from the
environment alone (no partial merge with the old entry).  Both the
`AndroidMCP` and the `AndroidController` variant behave so. -/
theorem C5_device_info_cache (env : Env) :
    (∀ (cache : AndroidMCP.Cache) (device_id : String) (f1 : Bool),
      AndroidMCP.get_device_info
          (AndroidMCP.get_device_info cache env device_id f1).2.1 env device_id false =
        ((AndroidMCP.get_device_info cache env device_id f1).1,
         (AndroidMCP.get_device_info cache env device_id f1).2.1, [])) ∧
    (∀ (cache : AndroidMCP.Cache) (device_id : String),
      AndroidMCP.get_device_info cache env device_id true =
        (AndroidMCP.fresh_device_info env device_id,
         dictInsert cache device_id (AndroidMCP.fresh_device_info env device_id),
         AndroidMCP.info_queries device_id)) ∧
    (∀ (cache : AndroidController.Cache) (device_id : String) (f1 : Bool),
      AndroidController.get_device_info
          (AndroidController.get_device_info cache env device_id f1).2.1 env device_id false =
        ((AndroidController.get_device_info cache env device_id f1).1,
         (AndroidController.get_device_info cache env device_id f1).2.1, [])) ∧
    (∀ (cache : AndroidController.Cache) (device_id : String),
      AndroidController.get_device_info cache env device_id true =
        (AndroidController.fresh_device_info env device_id,
         dictInsert cache device_id (AndroidController.fresh_device_info env device_id),
         AndroidController.info_queries device_id)) := by
  refine ⟨?_, ?_, ?_, ?_⟩
  · intro cache device_id f1
    cases hf : f1 <;> cases hg : dictGet cache device_id <;>
      simp [AndroidMCP.get_device_info, hg, dictGet_dictInsert]
  · intro cache device_id
    cases hg : dictGet cache device_id <;>
      simp [AndroidMCP.get_device_info, hg]
  · intro cache device_id f1
    cases hf : f1 <;> cases hg : dictGet cache device_id <;>
      simp [AndroidController.get_device_info, hg, dictGet_dictInsert]
  · intro cache device_id
    cases hg : dictGet cache device_id <;>
      simp [AndroidController.get_device_info, hg]

/-! ## Claim C4 -/

/-- The imperative filtering loop of `get_devices` agrees with its
declarative description. -/
theorem parse_loop_eq (lines : List String) :
    ∀ acc : List String,
      lines.foldl
        (fun devices line =>
          if pyStrip line = "" then devices
          else
            match pySplitStr "\t" line with
            | p0 :: p1 :: _ =>
                if pyStrip p1 = "device" then devices ++ [pyStrip p0] else devices
            | _ => devices) acc =
      acc ++ lines.filterMap AndroidMCP.spec_device_line := by
  induction lines with
  | nil => intro acc; simp
  | cons l ls ih =>
      intro acc
      rw [List.foldl_cons, List.filterMap_cons]
      by_cases h : pyStrip l = ""
      · simp [AndroidMCP.spec_device_line, h, ih]
      · cases hsp : pySplitStr "\t" l with
        | nil => simp [AndroidMCP.spec_device_line, h, hsp, ih]
        | cons p0 rest =>
            cases rest with
            | nil => simp [AndroidMCP.spec_device_line, h, hsp, ih]
            | cons p1 rest2 =>
                by_cases hd : pyStrip p1 = "device" <;>
                  simp [AndroidMCP.spec_device_line, h, hsp, hd, ih]

/-- The code loop equals the spec-side declarative parse. -/
theorem parse_devices_eq_spec (stdout : String) :
    AndroidMCP.parse_devices stdout = AndroidMCP.spec_list_devices stdout := by
  unfold AndroidMCP.parse_devices AndroidMCP.spec_list_devices
  simpa using parse_loop_eq ((pySplitStr "\n" (pyStrip stdout)).drop 1) []

/-- Claim C4: `get_devices` skips the one-line header, parses each remaining
non-blank line as tab-separated id and status, and returns exactly the
identifiers whose status equals the authorized-device status `"device"`, in
the reported order; concretely the listing with `ABC123\tdevice` and
`DEF456\tunauthorized` yields exactly `["ABC123"]`. -/
theorem C4_list_devices_parsing (env : Env) :
    (∀ stdout : String,
      AndroidMCP.parse_devices stdout = AndroidMCP.spec_list_devices stdout) ∧
    AndroidMCP.parse_devices
        "List of devices attached\nABC123\tdevice\nDEF456\tunauthorized" = ["ABC123"] ∧
    ((env AndroidMCP.adb_devices_cmd).exitcode = 0 →
      AndroidMCP.get_devices env =
        (Except.ok (AndroidMCP.spec_list_devices (env AndroidMCP.adb_devices_cmd).stdout),
         [AndroidMCP.adb_devices_cmd])) := by
  refine ⟨parse_devices_eq_spec, by decide, ?_⟩
  intro h
  simp [AndroidMCP.get_devices, h, parse_devices_eq_spec]

/-- Witness for C4: the two-line scenario run through `get_devices`. -/
theorem C4_witness :
    AndroidMCP.get_devices envTwoDevices =
      (Except.ok ["ABC123"], [AndroidMCP.adb_devices_cmd]) := by
  have h := (C4_list_devices_parsing envTwoDevices).2.2 rfl
  have h2 : AndroidMCP.spec_list_devices
      (envTwoDevices AndroidMCP.adb_devices_cmd).stdout = ["ABC123"] := by decide
  rw [h, h2]

/-! ## Claim C2 -/

/-- Counterexample to claim C2 as stated: with a stale snapshot still
listing `ABC123` while the refreshed (latest) device list is empty,
`use_device` succeeds and binds `ABC123` — the adapter checks its cached
snapshot before refreshing, so an identifier absent from the latest
refreshed device list does not always produce a failure. -/
theorem C2_counterexample :
    "ABC123" ∉ refreshed_devices envHeaderOnly ∧
    (MCPAdapter.use_device stStale envHeaderOnly "ABC123").1 = MCPAdapter.ok_result ∧
    (MCPAdapter.use_device stStale envHeaderOnly "ABC123").2.1.current_device =
      some "ABC123" := by
  refine ⟨by decide, ?_, ?_⟩ <;> rfl

/-- Claim C2 (amended): the adapter's `use_device` checks the cached
snapshot first and binds without refreshing on a hit; for an identifier
absent from both the cached snapshot and the refreshed list it returns the
failure dict — it does not throw, being a total function — and leaves the
prior binding (bound or unbound) unchanged; every successful call binds the
given identifier as current.  The FastMCP server's `use_device` validates
against a freshly fetched list but signals failure by raising (modelled as
`Except.error`), likewise leaving the binding unchanged on failure and
binding the identifier on success. -/
theorem C2_use_device_binding :
    (∀ (st : MCPAdapter.SysSt) (env : Env) (device_id : String),
      (device_id ∉ st.devices → device_id ∉ refreshed_devices env →
        (MCPAdapter.use_device st env device_id).1 = MCPAdapter.fail_result ∧
        (MCPAdapter.use_device st env device_id).2.1.current_device = st.current_device) ∧
      ((MCPAdapter.use_device st env device_id).1 = MCPAdapter.ok_result →
        (MCPAdapter.use_device st env device_id).2.1.current_device = some device_id)) ∧
    (∀ (cur : Option String) (env : Env) (device : String),
      (device ≠ "" → (env AndroidMCP.adb_devices_cmd).exitcode = 0 →
        device ∉ refreshed_devices env →
        (MCPServer.use_device cur env device).1 =
          Except.error ("Failed to use device: Device " ++ device ++ " not found") ∧
        (MCPServer.use_device cur env device).2.1 = cur) ∧
      (∀ b, (MCPServer.use_device cur env device).1 = Except.ok b →
        (MCPServer.use_device cur env device).2.1 = some device)) := by
  constructor
  · intro st env device_id
    constructor
    · intro h1 h2
      by_cases hz : (env AndroidMCP.adb_devices_cmd).exitcode = 0
      · have h2' : device_id ∉ AndroidMCP.parse_devices (env AndroidMCP.adb_devices_cmd).stdout := h2
        simp [MCPAdapter.use_device, h1, MCPAdapter.refresh_devices,
              AndroidMCP.get_devices, hz, h2']
      · simp [MCPAdapter.use_device, h1, MCPAdapter.refresh_devices,
              AndroidMCP.get_devices, hz]
    · intro hok
      by_cases h1 : device_id ∈ st.devices
      · simp [MCPAdapter.use_device, h1]
      · by_cases hz : (env AndroidMCP.adb_devices_cmd).exitcode = 0
        · by_cases hm : device_id ∈ AndroidMCP.parse_devices (env AndroidMCP.adb_devices_cmd).stdout
          · simp [MCPAdapter.use_device, h1, MCPAdapter.refresh_devices,
                  AndroidMCP.get_devices, hz, hm]
          · simp [MCPAdapter.use_device, h1, MCPAdapter.refresh_devices,
                  AndroidMCP.get_devices, hz, hm,
                  MCPAdapter.fail_result, MCPAdapter.ok_result] at hok
        · simp [MCPAdapter.use_device, h1, MCPAdapter.refresh_devices,
                AndroidMCP.get_devices, hz,
                MCPAdapter.fail_result, MCPAdapter.ok_result] at hok
  · intro cur env device
    constructor
    · intro hne hz habs
      have habs' : device ∉ AndroidMCP.parse_devices (env AndroidMCP.adb_devices_cmd).stdout := habs
      simp [MCPServer.use_device, hne, AndroidMCP.get_devices, hz, habs']
    · intro b hok
      by_cases hne : device = ""
      · simp [MCPServer.use_device, hne] at hok
      · by_cases hz : (env AndroidMCP.adb_devices_cmd).exitcode = 0
        · by_cases hm : device ∈ AndroidMCP.parse_devices (env AndroidMCP.adb_devices_cmd).stdout
          · simp [MCPServer.use_device, hne, AndroidMCP.get_devices, hz, hm]
          · simp [MCPServer.use_device, hne, AndroidMCP.get_devices, hz, hm] at hok
        · simp [MCPServer.use_device, hne, AndroidMCP.get_devices, hz] at hok

/-- Witness for C2 (amended) at concrete inputs: an identifier in neither
list fails on the adapter without disturbing the unbound state, and makes
the server raise its not-found error. -/
theorem C2_witness :
    (MCPAdapter.use_device stUnbound envHeaderOnly "XYZ").1 = MCPAdapter.fail_result ∧
    (MCPAdapter.use_device stUnbound envHeaderOnly "XYZ").2.1.current_device = none ∧
    (MCPServer.use_device none envHeaderOnly "XYZ").1 =
      Except.error "Failed to use device: Device XYZ not found" := by
  obtain ⟨h1, h2⟩ :=
    (C2_use_device_binding.1 stUnbound envHeaderOnly "XYZ").1 (by decide) (by decide)
  exact ⟨h1, h2,
    ((C2_use_device_binding.2 none envHeaderOnly "XYZ").1 (by decide) rfl (by decide)).1⟩

/-! ## Claim C1 -/

/-- Counterexample to claim C1 as stated: invoked unbound, the adapter's
`press_button` returns `{"success": False}`, a result that carries no
message at all; the JSON-RPC envelope built from it says `"Failed to press
button"`, which does not contain `"no device selected"`; and the FastMCP
server raises `"No device selected"`, which does not contain the lowercase
phrase either. -/
theorem C1_counterexample :
    (MCPAdapter.press_button stUnbound envOk "BACK").1 = MCPAdapter.fail_result ∧
    dictGet (MCPAdapter.press_button stUnbound envOk "BACK").1 "message" = none ∧
    (MCPAdapter.handle_mcp_request
        (Except.ok [("id", JsonVal.num 7),
                    ("method", JsonVal.str "mcp.mobile_press_button"),
                    ("params", JsonVal.obj [("button", JsonVal.str "BACK")])])
        stUnbound envOk fsEmpty idEncode parseNone "ts").1.error? =
      some ⟨-32000, "Failed to press button"⟩ ∧
    strContains "Failed to press button" "no device selected" = false ∧
    (MCPServer.press_button none envOk "BACK").1 = Except.error "No device selected" ∧
    strContains "No device selected" "no device selected" = false := by
  exact ⟨rfl, rfl, rfl, by decide, rfl, by decide⟩

/-- Claim C1 (amended): every session-scoped operation of the remote
adapter and of the FastMCP server, invoked while no device is bound, fails
before doing anything: the adapter operations return `{"success": False}` —
with no message — leaving the state untouched and issuing no external
invocation; the FastMCP server tools raise `"No device selected"` (which
matches the claimed phrase only up to case) with no external invocation. -/
theorem C1_unbound_guards :
    ∀ (st : MCPAdapter.SysSt) (env : Env) (fs : FS) (b64 : String → String)
      (parseXml : String → Option (List JsonVal)) (ts : String)
      (pkg url button direction text : String) (x y : Int) (submit : Bool),
      st.current_device = none →
      (MCPAdapter.take_screenshot st env fs b64 ts = (MCPAdapter.fail_result, st, []) ∧
       MCPAdapter.list_apps st env = (MCPAdapter.fail_result, st, []) ∧
       MCPAdapter.launch_app st env pkg = (MCPAdapter.fail_result, st, []) ∧
       MCPAdapter.terminate_app st env pkg = (MCPAdapter.fail_result, st, []) ∧
       MCPAdapter.get_screen_size st env = (MCPAdapter.fail_result, st, []) ∧
       MCPAdapter.tap_screen st env x y = (MCPAdapter.fail_result, st, []) ∧
       MCPAdapter.swipe_screen st env direction = (MCPAdapter.fail_result, st, []) ∧
       MCPAdapter.type_keys st env text submit = (MCPAdapter.fail_result, st, []) ∧
       MCPAdapter.press_button st env button = (MCPAdapter.fail_result, st, []) ∧
       MCPAdapter.open_url st env url = (MCPAdapter.fail_result, st, []) ∧
       MCPAdapter.list_elements_on_screen st env fs parseXml ts =
         (MCPAdapter.fail_result, st, [])) ∧
      (MCPServer.press_button none env button = (Except.error "No device selected", []) ∧
       MCPServer.take_screenshot none env fs b64 ts =
         (Except.error "No device selected", []) ∧
       MCPServer.list_apps none env = (Except.error "No device selected", [])) ∧
      (dictGet MCPAdapter.fail_result "message" = none ∧
       strContains "No device selected" "no device selected" = false ∧
       strContains (pyLower "No device selected") "no device selected" = true) := by
  intro st env fs b64 parseXml ts pkg url button direction text x y submit hst
  refine ⟨⟨?_, ?_, ?_, ?_, ?_, ?_, ?_, ?_, ?_, ?_, ?_⟩, ⟨rfl, rfl, rfl⟩,
          ⟨rfl, by decide, by decide⟩⟩ <;>
    simp [MCPAdapter.take_screenshot, MCPAdapter.list_apps, MCPAdapter.launch_app,
          MCPAdapter.terminate_app, MCPAdapter.get_screen_size, MCPAdapter.tap_screen,
          MCPAdapter.swipe_screen, MCPAdapter.type_keys, MCPAdapter.press_button,
          MCPAdapter.open_url, MCPAdapter.list_elements_on_screen,
          MCPAdapter.bound, pyTruthy, hst]

/-- Witness for C1 (amended) at concrete unbound states. -/
theorem C1_witness :
    MCPAdapter.take_screenshot stUnbound envOk fsEmpty idEncode "ts" =
      (MCPAdapter.fail_result, stUnbound, []) ∧
    MCPServer.list_apps none envOk = (Except.error "No device selected", []) := by
  obtain ⟨ha, hs, _⟩ := C1_unbound_guards stUnbound envOk fsEmpty idEncode parseNone "ts"
    "com.example" "https://example.org" "BACK" "up" "hello" 1 2 false rfl
  exact ⟨ha.1, hs.2.2⟩

/-! ## Claim C10 -/

/-- The fixed envelope always carries exactly one of result / error. -/
theorem envelope_shape (id : JsonVal) (r : MCPAdapter.AdapterResult) (v : JsonVal)
    (msg : String) :
    (MCPAdapter.envelope id r v msg).jsonrpc = "2.0" ∧
    ((MCPAdapter.envelope id r v msg).result?.isSome ↔
      (MCPAdapter.envelope id r v msg).error? = none) := by
  by_cases h : MCPAdapter.result_success r <;>
    simp [MCPAdapter.envelope, MCPAdapter.respOk, MCPAdapter.respErr, h]

/-- An unknown method name reaches the `-32601` branch. -/
theorem dispatch_unknown (m : String) (id : JsonVal) (params : List (String × JsonVal))
    (st : MCPAdapter.SysSt) (env : Env) (fs : FS) (b64 : String → String)
    (parseXml : String → Option (List JsonVal)) (ts : String)
    (h : m ∉ MCPAdapter.known_methods) :
    MCPAdapter.dispatch m id params st env fs b64 parseXml ts =
      (MCPAdapter.respErr id (-32601) ("Method not found: " ++ m), st, []) := by
  simp only [MCPAdapter.known_methods, List.mem_cons, List.not_mem_nil, or_false,
    not_or] at h
  obtain ⟨h1, h2, h3, h4, h5, h6, h7, h8, h9, h10, h11, h12, h13⟩ := h
  unfold MCPAdapter.dispatch
  rw [if_neg h1, if_neg h2, if_neg h3, if_neg h4, if_neg h5, if_neg h6, if_neg h7,
      if_neg h8, if_neg h9, if_neg h10, if_neg h11, if_neg h12, if_neg h13]

/-- Every dispatch branch produces the fixed envelope shape. -/
theorem dispatch_shape (m : String) (id : JsonVal) (params : List (String × JsonVal))
    (st : MCPAdapter.SysSt) (env : Env) (fs : FS) (b64 : String → String)
    (parseXml : String → Option (List JsonVal)) (ts : String) :
    (MCPAdapter.dispatch m id params st env fs b64 parseXml ts).1.jsonrpc = "2.0" ∧
    ((MCPAdapter.dispatch m id params st env fs b64 parseXml ts).1.result?.isSome ↔
      (MCPAdapter.dispatch m id params st env fs b64 parseXml ts).1.error? = none) := by
  by_cases h1 : m = "mcp.mobile_list_available_devices"
  · subst h1
    exact ⟨rfl, iff_of_true rfl rfl⟩
  by_cases h2 : m = "mcp.mobile_use_device"
  · subst h2
    exact envelope_shape _ _ _ _
  by_cases h3 : m = "mcp.mobile_take_screenshot"
  · subst h3
    exact envelope_shape _ _ _ _
  by_cases h4 : m = "mcp.mobile_list_apps"
  · subst h4
    exact envelope_shape _ _ _ _
  by_cases h5 : m = "mcp.mobile_launch_app"
  · subst h5
    exact envelope_shape _ _ _ _
  by_cases h6 : m = "mcp.mobile_terminate_app"
  · subst h6
    exact envelope_shape _ _ _ _
  by_cases h7 : m = "mcp.mobile_get_screen_size"
  · subst h7
    exact envelope_shape _ _ _ _
  by_cases h8 : m = "mcp.mobile_click_on_screen_at_coordinates"
  · subst h8
    exact envelope_shape _ _ _ _
  by_cases h9 : m = "mcp.swipe_on_screen"
  · subst h9
    exact envelope_shape _ _ _ _
  by_cases h10 : m = "mcp.mobile_type_keys"
  · subst h10
    exact envelope_shape _ _ _ _
  by_cases h11 : m = "mcp.mobile_press_button"
  · subst h11
    exact envelope_shape _ _ _ _
  by_cases h12 : m = "mcp.mobile_open_url"
  · subst h12
    exact envelope_shape _ _ _ _
  by_cases h13 : m = "mcp.mobile_list_elements_on_screen"
  · subst h13
    exact envelope_shape _ _ _ _
  have hnot : m ∉ MCPAdapter.known_methods := by
    simp [MCPAdapter.known_methods, h1, h2, h3, h4, h5, h6, h7, h8, h9, h10, h11,
          h12, h13]
  rw [dispatch_unknown m id params st env fs b64 parseXml ts hnot]
  exact ⟨rfl, iff_of_false (by simp [MCPAdapter.respErr]) (by simp [MCPAdapter.respErr])⟩

/-- The routed response of a parsed request keeps the envelope shape. -/
theorem handle_request_shape (request : List (String × JsonVal))
    (st : MCPAdapter.SysSt) (env : Env) (fs : FS) (b64 : String → String)
    (parseXml : String → Option (List JsonVal)) (ts : String) :
    (MCPAdapter.handle_request request st env fs b64 parseXml ts).1.jsonrpc = "2.0" ∧
    ((MCPAdapter.handle_request request st env fs b64 parseXml ts).1.result?.isSome ↔
      (MCPAdapter.handle_request request st env fs b64 parseXml ts).1.error? = none) := by
  unfold MCPAdapter.handle_request
  cases hm : (dictGet request "method").getD (JsonVal.str "") <;>
    first
      | exact dispatch_shape _ _ _ _ _ _ _ _ _
      | simp [MCPAdapter.respErr]

/-- Claim C10: `handle_mcp_request` is total over all parse outcomes — every
response is an envelope with `jsonrpc` and an id carrying exactly one of
result and error; an input that is not a valid JSON object yields the error
envelope `-32000` with id 0; an unrecognized (string) method name yields the
error envelope `-32601`. -/
theorem C10_handle_request_total (input : MCPAdapter.RpcInput)
    (st : MCPAdapter.SysSt) (env : Env) (fs : FS) (b64 : String → String)
    (parseXml : String → Option (List JsonVal)) (ts : String) :
    (MCPAdapter.handle_mcp_request input st env fs b64 parseXml ts).1.jsonrpc = "2.0" ∧
    ((MCPAdapter.handle_mcp_request input st env fs b64 parseXml ts).1.result?.isSome ↔
      (MCPAdapter.handle_mcp_request input st env fs b64 parseXml ts).1.error? = none) ∧
    (∀ emsg, input = Except.error emsg →
      (MCPAdapter.handle_mcp_request input st env fs b64 parseXml ts).1.error? =
        some ⟨-32000, "Error handling request: " ++ emsg⟩ ∧
      (MCPAdapter.handle_mcp_request input st env fs b64 parseXml ts).1.id =
        JsonVal.num 0) ∧
    (∀ request m, input = Except.ok request →
      dictGet request "method" = some (JsonVal.str m) →
      m ∉ MCPAdapter.known_methods →
      (MCPAdapter.handle_mcp_request input st env fs b64 parseXml ts).1.error? =
        some ⟨-32601, "Method not found: " ++ m⟩) := by
  cases input with
  | error e =>
      refine ⟨rfl, by simp [MCPAdapter.handle_mcp_request], ?_, ?_⟩
      · intro emsg he
        cases he
        exact ⟨rfl, rfl⟩
      · intro request m hok
        exact absurd hok (by simp)
  | ok request =>
      obtain ⟨hj, hx⟩ := handle_request_shape request st env fs b64 parseXml ts
      refine ⟨hj, hx, ?_, ?_⟩
      · intro emsg he
        exact absurd he (by simp)
      · intro request' m hok hmethod hunknown
        injection hok with hreq
        subst hreq
        have hscrut : (dictGet request "method").getD (JsonVal.str "") = JsonVal.str m := by
          rw [hmethod]
          rfl
        have hd := dispatch_unknown m ((dictGet request "id").getD (JsonVal.num 0))
          (match dictGet request "params" with
           | some (JsonVal.obj o) => o
           | _ => []) st env fs b64 parseXml ts hunknown
        show (MCPAdapter.handle_request request st env fs b64 parseXml ts).1.error? = _
        unfold MCPAdapter.handle_request
        simp only [hscrut, hd]
        rfl

/-- Witness for C10: an unparsable input and an unknown method name at
concrete values. -/
theorem C10_witness :
    (MCPAdapter.handle_mcp_request (Except.error "Expecting value")
        stUnbound envOk fsEmpty idEncode parseNone "ts").1.error? =
      some ⟨-32000, "Error handling request: Expecting value"⟩ ∧
    (MCPAdapter.handle_mcp_request
        (Except.ok [("id", JsonVal.num 3), ("method", JsonVal.str "mcp.unknown_method")])
        stUnbound envOk fsEmpty idEncode parseNone "ts").1.error? =
      some ⟨-32601, "Method not found: mcp.unknown_method"⟩ := by
  refine ⟨(C10_handle_request_total (Except.error "Expecting value")
      stUnbound envOk fsEmpty idEncode parseNone "ts").2.2.1 "Expecting value" rfl |>.1, ?_⟩
  exact (C10_handle_request_total
      (Except.ok [("id", JsonVal.num 3), ("method", JsonVal.str "mcp.unknown_method")])
      stUnbound envOk fsEmpty idEncode parseNone "ts").2.2.2
    [("id", JsonVal.num 3), ("method", JsonVal.str "mcp.unknown_method")]
    "mcp.unknown_method" rfl rfl (by decide)

/-! ## Claim C7 -/

/-- Counterexample to claim C7 as stated: in the produced flow file the app
declaration precedes the `---` separator, so the first two lines after the
separator are `- launchApp` and a blank line — not `appId: <pkg>` followed
by `- launchApp`.  (The step count of the file, with one interaction step,
is 3 = N + 2 as claimed.) -/
theorem C7_counterexample :
    (linesOf c7_file)[2]? = some "---" ∧
    (linesOf c7_file)[3]? = some "- launchApp" ∧
    (linesOf c7_file)[4]? = some "" ∧
    (linesOf c7_file)[3]? ≠ some "appId: com.example.app" ∧
    stepCount c7_file = 3 := by
  refine ⟨?_, ?_, ?_, ?_, ?_⟩ <;> decide

/-- `String.mk` undoes `String.data`. -/
theorem mk_data (s : String) : String.mk s.data = s := rfl

/-- `String.mk` of concatenated character data is string concatenation. -/
theorem mk_append (a b : String) : String.mk (a.data ++ b.data) = a ++ b := by
  rw [← String.data_append, mk_data]

/-- Splitting off a leading newline. -/
theorem splitLines_cons_nl (R : List Char) :
    splitLines ('\n' :: R) = [] :: splitLines R := by
  simp [splitLines, splitLinesStep]

/-- Folding the line constructor over newline-free characters prepends them
to the current line. -/
theorem foldr_splitLines_noNL (A : List Char) (l : List Char) (ls : List (List Char))
    (hA : A.all (fun c => decide (c ≠ '\n')) = true) :
    A.foldr splitLinesStep (l :: ls) = (A ++ l) :: ls := by
  induction A with
  | nil => rfl
  | cons c cs ih =>
      simp only [List.all_cons, Bool.and_eq_true, decide_eq_true_eq] at hA
      rw [List.foldr_cons, ih hA.2]
      simp [splitLinesStep, hA.1]

/-- Splitting off one full line. -/
theorem splitLines_line (A R : List Char)
    (hA : A.all (fun c => decide (c ≠ '\n')) = true) :
    splitLines (A ++ '\n' :: R) = A :: splitLines R := by
  unfold splitLines
  rw [List.foldr_append, List.foldr_cons]
  have hstep : splitLinesStep '\n' (R.foldr splitLinesStep [[]]) =
      [] :: R.foldr splitLinesStep [[]] := by
    simp [splitLinesStep]
  rw [hstep, foldr_splitLines_noNL A [] _ hA]
  simp

/-- Newline-freedom is preserved by list concatenation. -/
theorem all_noNL_append (a b : List Char)
    (ha : a.all (fun c => decide (c ≠ '\n')) = true)
    (hb : b.all (fun c => decide (c ≠ '\n')) = true) :
    (a ++ b).all (fun c => decide (c ≠ '\n')) = true := by
  rw [List.all_append, ha, hb]
  rfl

/-- `List.all` survives `dropWhile`. -/
theorem all_dropWhile (p q : Char → Bool) (l : List Char) (h : l.all p = true) :
    (l.dropWhile q).all p = true := by
  induction l with
  | nil => simp
  | cons c cs ih =>
      simp only [List.all_cons, Bool.and_eq_true] at h
      by_cases hq : q c
      · simp [List.dropWhile_cons, hq, ih h.2]
      · simp [List.dropWhile_cons, hq, h.1, h.2]

/-- Newline-freedom is preserved by Python `strip`. -/
theorem noNL_pyStrip (s : String) (h : noNL s = true) : noNL (pyStrip s) = true := by
  have h1 : (s.data.dropWhile isPySpace).all (fun c => decide (c ≠ '\n')) = true :=
    all_dropWhile _ _ _ h
  have h2 : (s.data.dropWhile isPySpace).reverse.all (fun c => decide (c ≠ '\n')) = true := by
    rwa [List.all_reverse]
  have h3 := all_dropWhile (fun c => decide (c ≠ '\n')) isPySpace _ h2
  show (pyStripChars s.data).all (fun c => decide (c ≠ '\n')) = true
  unfold pyStripChars
  rwa [List.all_reverse]

/-- A line that extends a literal at least six characters long that matches
neither marker is not a step line. -/
theorem isStepLine_false_of_lit (lit : String) (rest : List Char)
    (h6 : ("appId:".data).length ≤ lit.data.length)
    (h2 : ("- ".data).length ≤ lit.data.length)
    (hA : lit.data.take ("appId:".data).length ≠ "appId:".data)
    (hB : lit.data.take ("- ".data).length ≠ "- ".data) :
    isStepLine (lit.data ++ rest) = false := by
  unfold isStepLine listStarts
  rw [List.take_append_of_le_length h6, List.take_append_of_le_length h2]
  simp only [Bool.or_eq_false_iff, decide_eq_false_iff_not]
  exact ⟨hA, hB⟩

/-- A line that extends a literal starting with `"- "` is a step line. -/
theorem isStepLine_true_of_dash (lit : String) (rest : List Char)
    (h2 : ("- ".data).length ≤ lit.data.length)
    (hB : lit.data.take ("- ".data).length = "- ".data) :
    isStepLine (lit.data ++ rest) = true := by
  unfold isStepLine listStarts
  rw [List.take_append_of_le_length h2]
  simp only [Bool.or_eq_true, decide_eq_true_eq]
  exact Or.inr hB

/-- The `appId:` declaration line is a step line for every package text. -/
theorem isStepLine_appId (rest : List Char) :
    isStepLine ("appId: ".data ++ rest) = true := by
  unfold isStepLine listStarts
  rw [List.take_append_of_le_length (by decide)]
  simp

/-- The lines one appended step contributes to the flow file: its snippet
lines followed by the blank line from the appender's extra newline. -/
theorem step_chunk_lines (st : AndroidMCP.MStep) (h : AndroidMCP.stepWF st = true)
    (R : List Char) :
    splitLines ((AndroidMCP.stepSnippet st ++ "\n").data ++ R) =
      (AndroidMCP.stepLineList st).map String.data ++ ([] :: splitLines R) := by
  have hdNL : ("\n" : String).data = ['\n'] := by decide
  have hdE : ("" : String).data = ([] : List Char) := by decide
  have hdTap : ("- tapOn:\n").data = "- tapOn:".data ++ ['\n'] := by decide
  have hdInput : ("- inputText:\n").data = "- inputText:".data ++ ['\n'] := by decide
  have hdAssert : ("- assertVisible:\n").data = "- assertVisible:".data ++ ['\n'] := by decide
  have hdQuote : ("\"\n").data = "\"".data ++ ['\n'] := by decide
  have hdBack : ("- pressBack\n").data = "- pressBack".data ++ ['\n'] := by decide
  have hdSwipeStart : ("- swipe:\n    start: \"").data =
      "- swipe:".data ++ '\n' :: "    start: \"".data := by decide
  have hdSwipeEnd : ("\"\n    end: \"").data =
      "\"".data ++ '\n' :: "    end: \"".data := by decide
  cases st with
  | tapText t =>
      simp only [AndroidMCP.stepWF] at h
      have key : ((AndroidMCP.stepSnippet (AndroidMCP.MStep.tapText t) ++ "\n").data ++ R) =
          "- tapOn:".data ++ '\n' ::
            (("    text: \"".data ++ (t.data ++ "\"".data)) ++ '\n' :: '\n' :: R) := by
        simp [AndroidMCP.stepSnippet, AndroidMCP.tap_snippet_text, String.data_append,
              hdTap, hdQuote, hdNL]
      rw [key, splitLines_line _ _ (by decide),
          splitLines_line _ _ (all_noNL_append _ _ (by decide)
            (all_noNL_append _ _ h (by decide))),
          splitLines_cons_nl]
      simp [AndroidMCP.stepLineList, String.data_append]
  | tapId i =>
      simp only [AndroidMCP.stepWF] at h
      have key : ((AndroidMCP.stepSnippet (AndroidMCP.MStep.tapId i) ++ "\n").data ++ R) =
          "- tapOn:".data ++ '\n' ::
            (("    id: \"".data ++ (i.data ++ "\"".data)) ++ '\n' :: '\n' :: R) := by
        simp [AndroidMCP.stepSnippet, AndroidMCP.tap_snippet_id, String.data_append,
              hdTap, hdQuote, hdNL]
      rw [key, splitLines_line _ _ (by decide),
          splitLines_line _ _ (all_noNL_append _ _ (by decide)
            (all_noNL_append _ _ h (by decide))),
          splitLines_cons_nl]
      simp [AndroidMCP.stepLineList, String.data_append]
  | tapPoint x y =>
      simp only [AndroidMCP.stepWF, Bool.and_eq_true] at h
      have hx := noNL_pyStrip x h.1
      have hy := noNL_pyStrip y h.2
      have key : ((AndroidMCP.stepSnippet (AndroidMCP.MStep.tapPoint x y) ++ "\n").data ++ R) =
          "- tapOn:".data ++ '\n' ::
            (("    point: \"".data ++ ((pyStrip x).data ++ (",".data ++
              ((pyStrip y).data ++ "\"".data)))) ++ '\n' :: '\n' :: R) := by
        simp [AndroidMCP.stepSnippet, AndroidMCP.tap_snippet_point, String.data_append,
              hdTap, hdQuote, hdNL]
      rw [key, splitLines_line _ _ (by decide),
          splitLines_line _ _ (all_noNL_append _ _ (by decide)
            (all_noNL_append _ _ hx (all_noNL_append _ _ (by decide)
              (all_noNL_append _ _ hy (by decide))))),
          splitLines_cons_nl]
      simp [AndroidMCP.stepLineList, String.data_append]
  | inputTextOnly t =>
      simp only [AndroidMCP.stepWF] at h
      have key : ((AndroidMCP.stepSnippet (AndroidMCP.MStep.inputTextOnly t) ++ "\n").data ++ R) =
          "- inputText:".data ++ '\n' ::
            (("    text: \"".data ++ (t.data ++ "\"".data)) ++ '\n' :: '\n' :: R) := by
        simp [AndroidMCP.stepSnippet, AndroidMCP.input_snippet, pyTruthy, String.data_append,
              hdInput, hdQuote, hdNL, hdE]
      rw [key, splitLines_line _ _ (by decide),
          splitLines_line _ _ (all_noNL_append _ _ (by decide)
            (all_noNL_append _ _ h (by decide))),
          splitLines_cons_nl]
      simp [AndroidMCP.stepLineList, String.data_append]
  | inputTextWithId t i =>
      simp only [AndroidMCP.stepWF, Bool.and_eq_true, decide_eq_true_eq] at h
      obtain ⟨⟨ht, hi⟩, hine⟩ := h
      have key : ((AndroidMCP.stepSnippet (AndroidMCP.MStep.inputTextWithId t i) ++ "\n").data ++ R) =
          "- inputText:".data ++ '\n' ::
            (("    text: \"".data ++ (t.data ++ "\"".data)) ++ '\n' ::
              (("    id: \"".data ++ (i.data ++ "\"".data)) ++ '\n' :: '\n' :: R)) := by
        simp [AndroidMCP.stepSnippet, AndroidMCP.input_snippet, pyTruthy, hine,
              String.data_append, hdInput, hdQuote, hdNL]
      rw [key, splitLines_line _ _ (by decide),
          splitLines_line _ _ (all_noNL_append _ _ (by decide)
            (all_noNL_append _ _ ht (by decide))),
          splitLines_line _ _ (all_noNL_append _ _ (by decide)
            (all_noNL_append _ _ hi (by decide))),
          splitLines_cons_nl]
      simp [AndroidMCP.stepLineList, pyTruthy, hine, String.data_append]
  | swipeStep sx sy ex ey =>
      simp only [AndroidMCP.stepWF, Bool.and_eq_true] at h
      obtain ⟨⟨⟨hsx, hsy⟩, hex⟩, hey⟩ := h
      have hsx' := noNL_pyStrip sx hsx
      have hsy' := noNL_pyStrip sy hsy
      have hex' := noNL_pyStrip ex hex
      have hey' := noNL_pyStrip ey hey
      have key : ((AndroidMCP.stepSnippet (AndroidMCP.MStep.swipeStep sx sy ex ey) ++ "\n").data ++ R) =
          "- swipe:".data ++ '\n' ::
            (("    start: \"".data ++ ((pyStrip sx).data ++ (",".data ++
              ((pyStrip sy).data ++ "\"".data)))) ++ '\n' ::
              (("    end: \"".data ++ ((pyStrip ex).data ++ (",".data ++
                ((pyStrip ey).data ++ "\"".data)))) ++ '\n' :: '\n' :: R)) := by
        simp [AndroidMCP.stepSnippet, AndroidMCP.swipe_snippet, String.data_append,
              hdSwipeStart, hdSwipeEnd, hdQuote, hdNL]
      rw [key, splitLines_line _ _ (by decide),
          splitLines_line _ _ (all_noNL_append _ _ (by decide)
            (all_noNL_append _ _ hsx' (all_noNL_append _ _ (by decide)
              (all_noNL_append _ _ hsy' (by decide))))),
          splitLines_line _ _ (all_noNL_append _ _ (by decide)
            (all_noNL_append _ _ hex' (all_noNL_append _ _ (by decide)
              (all_noNL_append _ _ hey' (by decide))))),
          splitLines_cons_nl]
      simp [AndroidMCP.stepLineList, String.data_append]
  | waitStep seconds =>
      simp only [AndroidMCP.stepWF] at h
      have key : ((AndroidMCP.stepSnippet (AndroidMCP.MStep.waitStep seconds) ++ "\n").data ++ R) =
          ("- wait: ".data ++ seconds.data) ++ '\n' :: '\n' :: R := by
        simp [AndroidMCP.stepSnippet, AndroidMCP.wait_snippet, String.data_append, hdNL]
      rw [key, splitLines_line _ _ (all_noNL_append _ _ (by decide) h),
          splitLines_cons_nl]
      simp [AndroidMCP.stepLineList, String.data_append]
  | backStep =>
      have key : ((AndroidMCP.stepSnippet AndroidMCP.MStep.backStep ++ "\n").data ++ R) =
          "- pressBack".data ++ '\n' :: '\n' :: R := by
        simp [AndroidMCP.stepSnippet, AndroidMCP.back_snippet, String.data_append,
              hdBack, hdNL]
      rw [key, splitLines_line _ _ (by decide), splitLines_cons_nl]
      simp [AndroidMCP.stepLineList]
  | assertVisText t =>
      simp only [AndroidMCP.stepWF] at h
      have key : ((AndroidMCP.stepSnippet (AndroidMCP.MStep.assertVisText t) ++ "\n").data ++ R) =
          "- assertVisible:".data ++ '\n' ::
            (("    text: \"".data ++ (t.data ++ "\"".data)) ++ '\n' :: '\n' :: R) := by
        simp [AndroidMCP.stepSnippet, AndroidMCP.assert_snippet_text, String.data_append,
              hdAssert, hdQuote, hdNL]
      rw [key, splitLines_line _ _ (by decide),
          splitLines_line _ _ (all_noNL_append _ _ (by decide)
            (all_noNL_append _ _ h (by decide))),
          splitLines_cons_nl]
      simp [AndroidMCP.stepLineList, String.data_append]
  | assertVisId i =>
      simp only [AndroidMCP.stepWF] at h
      have key : ((AndroidMCP.stepSnippet (AndroidMCP.MStep.assertVisId i) ++ "\n").data ++ R) =
          "- assertVisible:".data ++ '\n' ::
            (("    id: \"".data ++ (i.data ++ "\"".data)) ++ '\n' :: '\n' :: R) := by
        simp [AndroidMCP.stepSnippet, AndroidMCP.assert_snippet_id, String.data_append,
              hdAssert, hdQuote, hdNL]
      rw [key, splitLines_line _ _ (by decide),
          splitLines_line _ _ (all_noNL_append _ _ (by decide)
            (all_noNL_append _ _ h (by decide))),
          splitLines_cons_nl]
      simp [AndroidMCP.stepLineList, String.data_append]

/-- Appending steps concatenates their chunks after the current contents. -/
theorem foldl_flow_data (steps : List AndroidMCP.MStep) :
    ∀ m : AndroidMCP.MaestroFlowFile,
      (steps.foldl
        (fun m st => AndroidMCP.append_to_maestro_flow m (AndroidMCP.stepSnippet st))
        m).contents.data =
      m.contents.data ++ (AndroidMCP.flow_body steps).data := by
  induction steps with
  | nil =>
      intro m
      simp [AndroidMCP.flow_body, show ("" : String).data = ([] : List Char) from by decide]
  | cons st rest ih =>
      intro m
      rw [List.foldl_cons, ih]
      simp [AndroidMCP.append_to_maestro_flow, AndroidMCP.flow_body, String.data_append]

/-- The character data of the built flow, shaped line by line. -/
theorem build_flow_data (pkg : String) (steps : List AndroidMCP.MStep) :
    (AndroidMCP.build_flow pkg steps).contents.data =
      "# Maestro Flow generated by Android MCP".data ++ '\n' ::
        (("appId: ".data ++ pkg.data) ++ '\n' ::
          ("---".data ++ '\n' :: ("- launchApp".data ++ '\n' :: '\n' ::
            (AndroidMCP.flow_body steps).data))) := by
  unfold AndroidMCP.build_flow
  rw [foldl_flow_data]
  have hdH : ("# Maestro Flow generated by Android MCP\n").data =
      "# Maestro Flow generated by Android MCP".data ++ ['\n'] := by decide
  have hdL : ("\n---\n- launchApp\n").data =
      '\n' :: ("---".data ++ '\n' :: ("- launchApp".data ++ ['\n'])) := by decide
  have hdNL : ("\n" : String).data = ['\n'] := by decide
  simp [AndroidMCP.maestro_launch_app, AndroidMCP.append_to_maestro_flow,
        AndroidMCP.clear_maestro_flow, String.data_append, hdH, hdL, hdNL]

/-- The lines of the appended interaction steps. -/
theorem flow_body_lines (steps : List AndroidMCP.MStep)
    (h : ∀ st ∈ steps, AndroidMCP.stepWF st = true) :
    splitLines (AndroidMCP.flow_body steps).data =
      steps.flatMap (fun st => (AndroidMCP.stepLineList st).map String.data ++ [[]]) ++
        [[]] := by
  induction steps with
  | nil => rfl
  | cons st rest ih =>
      have hst : AndroidMCP.stepWF st = true := h st (by simp)
      have hrest : ∀ s ∈ rest, AndroidMCP.stepWF s = true := fun s hs => h s (by simp [hs])
      rw [show AndroidMCP.flow_body (st :: rest) =
            (AndroidMCP.stepSnippet st ++ "\n") ++ AndroidMCP.flow_body rest from rfl,
          String.data_append, step_chunk_lines st hst, ih hrest]
      simp

/-- A line starting with a space is never a step line. -/
theorem isStepLine_space (rest : List Char) : isStepLine (' ' :: rest) = false := by
  simp [isStepLine, listStarts, List.take_succ_cons]

/-- A line starting with `"- "` is a step line. -/
theorem isStepLine_dash (rest : List Char) : isStepLine ('-' :: ' ' :: rest) = true := by
  simp [isStepLine, listStarts, List.take_succ_cons]

/-- Each appended step contributes exactly one step line. -/
theorem step_lines_count (st : AndroidMCP.MStep) :
    (((AndroidMCP.stepLineList st).map String.data ++ [[]]).filter isStepLine).length = 1 := by
  cases st <;>
    simp [AndroidMCP.stepLineList, String.data_append, isStepLine_space, isStepLine_dash,
      show isStepLine ([] : List Char) = false from by decide]

/-- Step lines across all appended interaction steps: one per step. -/
theorem flatMap_filter_count (steps : List AndroidMCP.MStep) :
    ((steps.flatMap
        (fun st => (AndroidMCP.stepLineList st).map String.data ++ [[]])).filter
      isStepLine).length = steps.length := by
  induction steps with
  | nil => rfl
  | cons st rest ih =>
      rw [List.flatMap_cons, List.filter_append, List.length_append, ih,
          step_lines_count st]
      simp [Nat.add_comm]

/-- Claim C7 (amended): clearing the flow, appending the app declaration
followed by launch-app, then N interaction steps, produces a flow file with
exactly N + 2 step lines; the app declaration is the line immediately
*before* the `---` separator, and the first two lines after the separator
are `- launchApp` and the blank chunk separator (not `appId:` and
`- launchApp` as the claim stated). -/
theorem C7_flow_builder_layout (pkg : String) (steps : List AndroidMCP.MStep)
    (hpkg : noNL pkg = true) (hsteps : ∀ st ∈ steps, AndroidMCP.stepWF st = true) :
    stepCount (AndroidMCP.build_flow pkg steps).contents = steps.length + 2 ∧
    (linesOf (AndroidMCP.build_flow pkg steps).contents)[1]? = some ("appId: " ++ pkg) ∧
    (linesOf (AndroidMCP.build_flow pkg steps).contents)[2]? = some "---" ∧
    (linesOf (AndroidMCP.build_flow pkg steps).contents)[3]? = some "- launchApp" ∧
    (linesOf (AndroidMCP.build_flow pkg steps).contents)[4]? = some "" := by
  have hlines : splitLines (AndroidMCP.build_flow pkg steps).contents.data =
      "# Maestro Flow generated by Android MCP".data ::
        ("appId: ".data ++ pkg.data) :: "---".data :: "- launchApp".data :: [] ::
          (steps.flatMap (fun st => (AndroidMCP.stepLineList st).map String.data ++ [[]]) ++
            [[]]) := by
    rw [build_flow_data, splitLines_line _ _ (by decide),
        splitLines_line _ _ (all_noNL_append _ _ (by decide) hpkg),
        splitLines_line _ _ (by decide), splitLines_line _ _ (by decide),
        splitLines_cons_nl, flow_body_lines steps hsteps]
  refine ⟨?_, ?_, ?_, ?_, ?_⟩
  · unfold stepCount
    rw [hlines]
    rw [List.filter_cons_of_neg (by decide),
        List.filter_cons_of_pos (isStepLine_appId pkg.data),
        List.filter_cons_of_neg (by decide),
        List.filter_cons_of_pos (by decide),
        List.filter_cons_of_neg (by decide),
        List.filter_append, List.length_cons, List.length_cons, List.length_append,
        flatMap_filter_count steps,
        show (List.filter isStepLine [([] : List Char)]).length = 0 from by decide]
  · unfold linesOf
    rw [hlines]
    rfl
  · unfold linesOf
    rw [hlines]
    rfl
  · unfold linesOf
    rw [hlines]
    rfl
  · unfold linesOf
    rw [hlines]
    simp

/-- Witness for C7 (amended): one wait step after the launch block. -/
theorem C7_witness :
    stepCount (AndroidMCP.build_flow "com.example.app"
      [AndroidMCP.MStep.waitStep "1"]).contents = 3 ∧
    (linesOf (AndroidMCP.build_flow "com.example.app"
      [AndroidMCP.MStep.waitStep "1"]).contents)[3]? = some "- launchApp" := by
  obtain ⟨h1, _, _, h3, _⟩ := C7_flow_builder_layout "com.example.app"
    [AndroidMCP.MStep.waitStep "1"] (by decide) (by decide)
  exact ⟨h1, h3⟩

end NexusSpec
